import Mathlib

/-!
Verification of the bulk-operation execution engine of the gmail-cleaner
repository (src/app/services/gmail/{mark_read,labels,important}.py).

The provider (Gmail API client) is modelled as an environment: a sequence of
page-fetch outcomes per query for the paginated list endpoint, and an outcome
per batch-mutate call.  Each executor is embedded as a pure function from its
inputs and such an environment to the final progress-status record together
with a trace of observable events (provider list calls, provider batch-mutate
calls, and writes to the progress field).  Python exceptions raised by a
provider call are modelled as Except-style error outcomes in the environment;
Python's int(x) on the nonnegative float expressions used for progress is
modelled as exact floor division on Nat.
-/

namespace GmailCleaner

/-- Message identifier: an opaque string id returned by the provider. -/
abbrev MsgId := String

/-- Outcome of one provider list call: a raised exception message, or a page of
message ids.  The continuation token is implicit: a page carries a token
exactly when further elements follow it in the provider's response sequence. -/
abbrev PageResult := Except String (List MsgId)

/-- Observable events of one executor run. -/
inductive Event where
  | listCall (query : String)
  | batchCall (ids : List MsgId)
  | progressWrite (v : Nat)
deriving DecidableEq

/-- The progress values successively written during a run, in order. -/
def progressWrites : List Event → List Nat
  | [] => []
  | .progressWrite v :: es => v :: progressWrites es
  | .listCall _ :: es => progressWrites es
  | .batchCall _ :: es => progressWrites es

/-- The batch-mutate calls issued during a run, in order. -/
def batchCalls : List Event → List (List MsgId)
  | [] => []
  | .batchCall ids :: es => ids :: batchCalls es
  | .listCall _ :: es => batchCalls es
  | .progressWrite _ :: es => batchCalls es

/-- The list (search) calls issued during a run, in order, by query string. -/
def listCalls : List Event → List String
  | [] => []
  | .listCall q :: es => q :: listCalls es
  | .batchCall _ :: es => listCalls es
  | .progressWrite _ :: es => listCalls es

/-- state.mark_read_status (the dict written by mark_emails_as_read). -/
structure MarkReadStatus where
  done : Bool := false
  progress : Nat := 0
  message : String := ""
  error : Option String := none
  marked_count : Nat := 0
deriving DecidableEq

/-- state.label_operation_status (the dict written by the label operations). -/
structure LabelOpStatus where
  done : Bool := false
  progress : Nat := 0
  message : String := ""
  error : Option String := none
  total_senders : Nat := 0
  current_sender : Nat := 0
  affected_count : Nat := 0
deriving DecidableEq

/-- state.important_status (the dict written by mark_important_background). -/
structure ImpStatus where
  done : Bool := false
  progress : Nat := 0
  message : String := ""
  error : Option String := none
  total_senders : Nat := 0
  current_sender : Nat := 0
  affected_count : Nat := 0
deriving DecidableEq

/-- Modelled from the spec: the state module (app.core.state) is not among the
source files.  Spec section 8 "Idempotent reset: calling reset before a run
always yields progress=0, done=false, error=absent", and section 3: the
counters default to 0. -/
def reset_mark_read : MarkReadStatus := {}

/-- Modelled from the spec: reset of the label-operation status (see
reset_mark_read). -/
def reset_label_operation : LabelOpStatus := {}

/-- Modelled from the spec: reset of the mark-important status (see
reset_mark_read). -/
def reset_important : ImpStatus := {}

/-- The pagination while-loop shared by all searches: after the initial list
call, keep fetching while a continuation token is present and, in the bounded
case, fewer than limit ids have accumulated.  Returns the accumulated ids (or
the first raised error) together with the number of list calls performed. -/
def searchLoop (markAll : Bool) (limit : Nat) :
    List MsgId → Nat → List PageResult → Except String (List MsgId) × Nat
  | acc, calls, [] => (.ok acc, calls)
  | acc, calls, r :: rest =>
    if !markAll && limit ≤ acc.length then (.ok acc, calls)
    else
      match r with
      | .error e => (.error e, calls + 1)
      | .ok msgs => searchLoop markAll limit (acc ++ msgs) (calls + 1) rest

/-- One full paginated search: the unconditional initial list call followed by
the continuation loop.  An exhausted response sequence stands for a final page
with no continuation token. -/
def searchCalls (markAll : Bool) (limit : Nat) :
    List PageResult → Except String (List MsgId) × Nat
  | [] => (.ok [], 1)
  | .error e :: _ => (.error e, 1)
  | .ok msgs :: rest => searchLoop markAll limit msgs 1 rest

/-- Structural worker for chunksOf: the fuel argument only guarantees
termination and is always instantiated with the list's length, which suffices
for every positive chunk size. -/
def chunksOfAux (c : Nat) : Nat → List MsgId → List (List MsgId)
  | _, [] => []
  | 0, _ :: _ => []
  | fuel + 1, l => l.take c :: chunksOfAux c fuel (l.drop c)

/-- The chunking pattern for i in range(0, total, c): batch = ids[i:i+c].
The executors only instantiate c with the positive constants 100 and 1000. -/
def chunksOf (c : Nat) (l : List MsgId) : List (List MsgId) :=
  chunksOfAux c l.length l

/-- Environment of mark_emails_as_read: the auth outcome (some e models
get_gmail_service returning an error), the list-call outcomes for the run's
single query, and the outcome of the k-th batchModify call (some e models a
raised exception). -/
structure MarkReadEnv where
  auth : Option String
  pages : List PageResult
  batchErr : Nat → Option String

/-- The ids selected for mutation by mark_emails_as_read (mark_read.py lines
66-98): the initial fetch plus the pagination loop, then the trim
messages[:count] when not marking all. -/
def markReadSelect (count : Nat) (markAll : Bool) (pages : List PageResult) :
    Except String (List MsgId) :=
  match (searchCalls markAll count pages).1 with
  | .error e => .error e
  | .ok ids => .ok (if markAll then ids else ids.take count)

/-- The batch loop of mark_emails_as_read (lines 109-121): one batchModify call
per chunk; a raised call propagates to the function's top-level except handler,
which records the error and sets done (the loop and the handler are fused here:
the state at the raise is exactly the state the handler receives). -/
def mrBatchLoop (batchErr : Nat → Option String) (total : Nat) :
    Nat → Nat → MarkReadStatus → List (List MsgId) → MarkReadStatus × List Event
  | _, marked, st, [] =>
    ({ st with message := s!"Done! Marked {marked} emails as read", done := true }, [])
  | k, marked, st, chunk :: rest =>
    match batchErr k with
    | some e => ({ st with error := some e, done := true }, [.batchCall chunk])
    | none =>
      let marked := marked + chunk.length
      let prog := marked * 100 / total
      let st := { st with progress := prog,
                          message := s!"Marked {marked}/{total} as read",
                          marked_count := marked }
      let (stF, evs) := mrBatchLoop batchErr total (k + 1) marked st rest
      (stF, .batchCall chunk :: .progressWrite prog :: evs)

/-- mark_emails_as_read (mark_read.py lines 35-128).  count < 0 is rejected and
count = 0 means mark all.  filterQuery models build_gmail_query(filters): none
when the filters serialize to no query text. -/
def mark_emails_as_read (count : Int) (filterQuery : Option String)
    (env : MarkReadEnv) : MarkReadStatus × List Event :=
  if count < 0 then
    ({ reset_mark_read with error := some "Count must be 0 or greater", done := true }, [])
  else
    let st := { reset_mark_read with message := "Connecting to Gmail..." }
    match env.auth with
    | some e => ({ st with error := some e, done := true }, [])
    | none =>
      let st := { st with message := "Finding unread emails..." }
      let query := match filterQuery with
        | none => "is:unread"
        | some f => "is:unread " ++ f
      let mark_all := count == 0
      let ncalls := (searchCalls mark_all count.toNat env.pages).2
      let listEvents := List.replicate ncalls (Event.listCall query)
      match markReadSelect count.toNat mark_all env.pages with
      | .error e => ({ st with error := some e, done := true }, listEvents)
      | .ok messages =>
        let total := messages.length
        if total = 0 then
          ({ st with message := "No unread emails found", done := true }, listEvents)
        else
          let (stF, evs) := mrBatchLoop env.batchErr total 0 0 st (chunksOf 100 messages)
          (stF, listEvents ++ evs)

/-- Environment of the per-sender operations (label apply/remove and
mark-important): the auth outcome, the list-call outcomes per query string, and
the outcome of the k-th batchModify call of the run. -/
structure SenderEnv where
  auth : Option String
  pages : String → List PageResult
  batchErr : Nat → Option String

/-- The full paginated search a per-sender operation performs for one query. -/
def senderSearch (pages : String → List PageResult) (query : String) :
    Except String (List MsgId) × Nat :=
  searchCalls true 0 (pages query)

/-- The ids one sender's search contributes ([] when its search raises). -/
def senderIds (pages : String → List PageResult) (queryOf : String → String)
    (s : String) : List MsgId :=
  match (senderSearch pages (queryOf s)).1 with
  | .ok l => l
  | .error _ => []

/-- The error string one sender's search records (none when it succeeds). -/
def senderErr (pages : String → List PageResult) (queryOf : String → String)
    (s : String) : Option String :=
  match (senderSearch pages (queryOf s)).1 with
  | .ok _ => none
  | .error e => some (s ++ ": " ++ e)

/-- The number of list calls one sender's search performs. -/
def senderCalls (pages : String → List PageResult) (queryOf : String → String)
    (s : String) : Nat :=
  (senderSearch pages (queryOf s)).2

/-- Phase 1 of the label operations (labels.py lines 138-169 and 248-280): per
sender, write current_sender / progress / message, then run a full paginated
search inside a try that on failure records "sender: error" and skips the
sender.  Returns the final written status, the collected ids, the recorded
errors, and the events. -/
def labelSearchLoop (pages : String → List PageResult) (queryOf : String → String)
    (n : Nat) :
    Nat → List MsgId → List String → LabelOpStatus → List String →
    LabelOpStatus × List MsgId × List String × List Event
  | _, ids, errs, st, [] => (st, ids, errs, [])
  | i, ids, errs, st, sender :: rest =>
    let prog := i * 40 / n
    let query := queryOf sender
    let st := { st with current_sender := i + 1, progress := prog,
                        message := s!"Finding emails from {sender}..." }
    let (res, ncalls) := searchCalls true 0 (pages query)
    let evs := Event.progressWrite prog :: List.replicate ncalls (Event.listCall query)
    match res with
    | .error e =>
      let (stF, idsF, errsF, evsF) :=
        labelSearchLoop pages queryOf n (i + 1) ids (errs ++ [sender ++ ": " ++ e]) st rest
      (stF, idsF, errsF, evs ++ evsF)
    | .ok msgs =>
      let (stF, idsF, errsF, evsF) :=
        labelSearchLoop pages queryOf n (i + 1) (ids ++ msgs) errs st rest
      (stF, idsF, errsF, evs ++ evsF)

/-- Phase 2 of the label operations (labels.py lines 186-201 and 297-312): the
whole chunk loop sits inside one try, so the first raised batch call aborts the
remaining chunks; the raise is recorded as tag ++ message.  Returns the final
written status, the count of ids mutated, the recorded batch failure if any,
and the events. -/
def labelBatchLoop (batchErr : Nat → Option String) (tag verb : String)
    (total : Nat) :
    Nat → Nat → LabelOpStatus → List (List MsgId) →
    LabelOpStatus × Nat × Option String × List Event
  | _, labeled, st, [] => (st, labeled, none, [])
  | k, labeled, st, chunk :: rest =>
    match batchErr k with
    | some e => (st, labeled, some (tag ++ e), [.batchCall chunk])
    | none =>
      let labeled := labeled + chunk.length
      let prog := 40 + labeled * 60 / total
      let st := { st with affected_count := labeled, progress := prog,
                          message := s!"{verb} {labeled}/{total} emails..." }
      let (stF, labF, errF, evs) :=
        labelBatchLoop batchErr tag verb total (k + 1) labeled st rest
      (stF, labF, errF, .batchCall chunk :: .progressWrite prog :: evs)

/-- The validation truthiness test not label_id or not label_id.strip(): true
exactly when the string is empty or whitespace-only. -/
def isBlank (s : String) : Bool := s.data.all Char.isWhitespace

/-- apply_label_to_senders_background (labels.py lines 109-216). -/
def apply_label_to_senders_background (label_id : String) (senders : List String)
    (env : SenderEnv) : LabelOpStatus × List Event :=
  let st := reset_label_operation
  if isBlank label_id = true then
    ({ st with done := true, error := some "Label ID is required" }, [])
  else if senders = [] then
    ({ st with done := true, error := some "No senders specified" }, [])
  else
    match env.auth with
    | some e => ({ st with done := true, error := some e }, [])
    | none =>
      let n := senders.length
      let st := { st with total_senders := n, message := "Finding emails to label..." }
      let (st, all_message_ids, errors, evs1) :=
        labelSearchLoop env.pages (fun s => "from:" ++ s) n 0 [] [] st senders
      if all_message_ids = [] then
        ({ st with progress := 100, done := true, message := "No emails found to label" },
          evs1 ++ [.progressWrite 100])
      else
        let total := all_message_ids.length
        let st := { st with message := s!"Applying label to {total} emails..." }
        let (st, labeled, batchFailure, evs2) :=
          labelBatchLoop env.batchErr "Batch label error: " "Labeled" total 0 0 st
            (chunksOf 1000 all_message_ids)
        let errors := errors ++ batchFailure.toList
        let st := { st with progress := 100, done := true, affected_count := labeled }
        let st :=
          if errors = [] then
            { st with message := s!"Successfully labeled {labeled} emails" }
          else
            { st with
                error := some ("Some errors: " ++ String.intercalate "; " (errors.take 3)),
                message := s!"Labeled {labeled} emails with some errors" }
        (st, evs1 ++ evs2 ++ [.progressWrite 100])

/-- remove_label_from_senders_background (labels.py lines 219-327).  Identical
orchestration to apply, with the label-membership query, removeLabelIds, and
its own message strings. -/
def remove_label_from_senders_background (label_id : String) (senders : List String)
    (env : SenderEnv) : LabelOpStatus × List Event :=
  let st := reset_label_operation
  if isBlank label_id = true then
    ({ st with done := true, error := some "Label ID is required" }, [])
  else if senders = [] then
    ({ st with done := true, error := some "No senders specified" }, [])
  else
    match env.auth with
    | some e => ({ st with done := true, error := some e }, [])
    | none =>
      let n := senders.length
      let st := { st with total_senders := n, message := "Finding emails to unlabel..." }
      let (st, all_message_ids, errors, evs1) :=
        labelSearchLoop env.pages (fun s => "from:" ++ s ++ " label:" ++ label_id) n
          0 [] [] st senders
      if all_message_ids = [] then
        ({ st with progress := 100, done := true,
                   message := "No emails found with this label" },
          evs1 ++ [.progressWrite 100])
      else
        let total := all_message_ids.length
        let st := { st with message := s!"Removing label from {total} emails..." }
        let (st, unlabeled, batchFailure, evs2) :=
          labelBatchLoop env.batchErr "Batch unlabel error: " "Unlabeled" total 0 0 st
            (chunksOf 1000 all_message_ids)
        let errors := errors ++ batchFailure.toList
        let st := { st with progress := 100, done := true, affected_count := unlabeled }
        let st :=
          if errors = [] then
            { st with message := s!"Successfully removed label from {unlabeled} emails" }
          else
            { st with
                error := some ("Some errors: " ++ String.intercalate "; " (errors.take 3)),
                message := s!"Unlabeled {unlabeled} emails with some errors" }
        (st, evs1 ++ evs2 ++ [.progressWrite 100])

/-- The inner batch loop of mark_important_background (important.py lines
66-74): chunks of 100 for one sender; a raised call propagates out of the whole
executor body (total_affected accumulates across successful chunks; the global
batch-call counter k threads across senders).  The time.sleep throttle is
timing-only and not modelled. -/
def impBatchLoop (batchErr : Nat → Option String) :
    Nat → Nat → List (List MsgId) → Nat × Nat × Option String × List Event
  | k, total_affected, [] => (total_affected, k, none, [])
  | k, total_affected, chunk :: rest =>
    match batchErr k with
    | some e => (total_affected, k + 1, some e, [.batchCall chunk])
    | none =>
      let (aF, kF, errF, evs) :=
        impBatchLoop batchErr (k + 1) (total_affected + chunk.length) rest
      (aF, kF, errF, .batchCall chunk :: evs)

/-- The per-sender loop of mark_important_background (important.py lines
37-74).  The whole loop runs inside the executor's single try: a raised search
or batch call aborts the remaining senders.  Returns the status as written so
far, the running affected count, the batch-call counter, the first raised
error if any, and the events. -/
def impSenderLoop (env : SenderEnv) (action : String) (n : Nat) :
    Nat → Nat → Nat → ImpStatus → List String →
    ImpStatus × Nat × Nat × Option String × List Event
  | _, k, total_affected, st, [] => (st, total_affected, k, none, [])
  | i, k, total_affected, st, sender :: rest =>
    let prog := i * 100 / n
    let st := { st with current_sender := i + 1,
                        message := s!"{action} emails from {sender}...",
                        progress := prog }
    let query := "from:" ++ sender
    let (res, ncalls) := searchCalls true 0 (env.pages query)
    let evs := Event.progressWrite prog :: List.replicate ncalls (Event.listCall query)
    match res with
    | .error e => (st, total_affected, k, some e, evs)
    | .ok message_ids =>
      let (affected2, k2, berr, bevs) :=
        impBatchLoop env.batchErr k total_affected (chunksOf 100 message_ids)
      match berr with
      | some e => (st, affected2, k2, some e, evs ++ bevs)
      | none =>
        let (stF, aF, kF, errF, evsF) :=
          impSenderLoop env action n (i + 1) k2 affected2 st rest
        (stF, aF, kF, errF, evs ++ bevs ++ evsF)

/-- mark_important_background (important.py lines 13-85).  The senders argument
is typed, so the isinstance(senders, list) guard reduces to the emptiness
check.  int((i / len(senders)) * 100) is modelled as exact floor. -/
def mark_important_background (senders : List String) (important : Bool)
    (env : SenderEnv) : ImpStatus × List Event :=
  let st := reset_important
  if senders = [] then
    ({ st with done := true, error := some "No senders specified" }, [])
  else
    let action := if important then "Marking" else "Unmarking"
    let st := { st with total_senders := senders.length,
                        message := action ++ " as important..." }
    match env.auth with
    | some e => ({ st with error := some e, done := true }, [])
    | none =>
      let (st, total_affected, _, fatal, evs) :=
        impSenderLoop env action senders.length 0 0 0 st senders
      match fatal with
      | some e =>
        ({ st with error := some e, done := true, message := "Error: " ++ e }, evs)
      | none =>
        let action_done :=
          if important then "marked as important" else "unmarked as important"
        ({ st with progress := 100, done := true, affected_count := total_affected,
                   message := s!"{total_affected} emails {action_done}" },
          evs ++ [.progressWrite 100])

/-- Environment of get_unread_count: the auth outcome and the outcome of the
single list call, whose resultSizeEstimate is an Option Nat (none when the
provider omits the field). -/
structure UnreadEnv where
  auth : Option String
  listResult : Except String (Option Nat)

/-- get_unread_count (mark_read.py lines 14-32).  The returned dict always has
a "count" key and sometimes an "error" key; it is modelled as the pair
(count, error). -/
def get_unread_count (env : UnreadEnv) : Nat × Option String :=
  match env.auth with
  | some e => (0, some e)
  | none =>
    match env.listResult with
    | .error e => (0, some e)
    | .ok est => (est.getD 0, none)

/-! ### Trace-extractor lemmas -/

theorem progressWrites_append (a b : List Event) :
    progressWrites (a ++ b) = progressWrites a ++ progressWrites b := by
  induction a with
  | nil => rfl
  | cons e es ih => cases e <;> simp [progressWrites, ih]

theorem batchCalls_append (a b : List Event) :
    batchCalls (a ++ b) = batchCalls a ++ batchCalls b := by
  induction a with
  | nil => rfl
  | cons e es ih => cases e <;> simp [batchCalls, ih]

theorem listCalls_append (a b : List Event) :
    listCalls (a ++ b) = listCalls a ++ listCalls b := by
  induction a with
  | nil => rfl
  | cons e es ih => cases e <;> simp [listCalls, ih]

theorem progressWrites_replicate_listCall (k : Nat) (q : String) :
    progressWrites (List.replicate k (Event.listCall q)) = [] := by
  induction k with
  | zero => rfl
  | succ k ih => simpa [List.replicate, progressWrites] using ih

theorem batchCalls_replicate_listCall (k : Nat) (q : String) :
    batchCalls (List.replicate k (Event.listCall q)) = [] := by
  induction k with
  | zero => rfl
  | succ k ih => simpa [List.replicate, batchCalls] using ih

theorem listCalls_replicate_listCall (k : Nat) (q : String) :
    listCalls (List.replicate k (Event.listCall q)) = List.replicate k q := by
  induction k with
  | zero => rfl
  | succ k ih => simpa [List.replicate, listCalls] using ih

/-! ### chunksOf lemmas -/

theorem chunksOfAux_fuel (c : Nat) :
    ∀ (f1 f2 : Nat) (l : List MsgId), l.length ≤ f1 → l.length ≤ f2 →
      chunksOfAux (c + 1) f1 l = chunksOfAux (c + 1) f2 l := by
  intro f1
  induction f1 with
  | zero =>
    intro f2 l h1 h2
    cases l with
    | nil => cases f2 <;> rfl
    | cons x xs => simp at h1
  | succ f1 ih =>
    intro f2 l h1 h2
    cases l with
    | nil => cases f2 <;> rfl
    | cons x xs =>
      cases f2 with
      | zero => simp at h2
      | succ f2 =>
        simp only [chunksOfAux]
        congr 1
        apply ih
        · calc ((x :: xs).drop (c + 1)).length ≤ xs.length := by
                simp only [List.length_drop, List.length_cons]
                omega
            _ ≤ f1 := by simpa using Nat.le_of_succ_le_succ h1
        · calc ((x :: xs).drop (c + 1)).length ≤ xs.length := by
                simp only [List.length_drop, List.length_cons]
                omega
            _ ≤ f2 := by simpa using Nat.le_of_succ_le_succ h2

theorem chunksOf_nil (c : Nat) : chunksOf c [] = [] := rfl

theorem chunksOf_cons_eq (c : Nat) (l : List MsgId) (h : l ≠ []) :
    chunksOf (c + 1) l = l.take (c + 1) :: chunksOf (c + 1) (l.drop (c + 1)) := by
  cases l with
  | nil => exact absurd rfl h
  | cons x xs =>
    show chunksOfAux (c + 1) (x :: xs).length (x :: xs) = _
    simp only [List.length_cons, chunksOfAux]
    congr 1
    apply chunksOfAux_fuel
    · simp only [List.length_drop, List.length_cons]
      omega
    · exact Nat.le_refl _

theorem chunksOf_flatten (c : Nat) (l : List MsgId) : (chunksOf (c + 1) l).flatten = l := by
  by_cases h : l = []
  · subst h; simp [chunksOf_nil]
  · rw [chunksOf_cons_eq c l h]
    have ih := chunksOf_flatten c (l.drop (c + 1))
    simp [ih]
termination_by l.length
decreasing_by
  simp only [List.length_drop]
  rcases l with _ | ⟨x, xs⟩
  · simp at h
  · simp only [List.length_cons]; omega

theorem chunksOf_mem_length {c : Nat} {l ch : List MsgId}
    (hm : ch ∈ chunksOf (c + 1) l) : ch.length ≤ c + 1 ∧ ch ≠ [] := by
  by_cases h : l = []
  · subst h; rw [chunksOf_nil] at hm; cases hm
  · rw [chunksOf_cons_eq c l h] at hm
    rcases List.mem_cons.mp hm with h1 | h1
    · subst h1
      refine ⟨by simpa using List.length_take_le (c + 1) l, ?_⟩
      rcases l with _ | ⟨x, xs⟩
      · simp at h
      · simp
    · exact chunksOf_mem_length h1
termination_by l.length
decreasing_by
  simp only [List.length_drop]
  rcases l with _ | ⟨x, xs⟩
  · simp at h
  · simp only [List.length_cons]; omega

theorem chunksOf_length (c : Nat) (l : List MsgId) :
    (chunksOf (c + 1) l).length = (l.length + c) / (c + 1) := by
  by_cases h : l = []
  · subst h
    rw [chunksOf_nil]
    simp only [List.length_nil, Nat.zero_add]
    exact (Nat.div_eq_of_lt (by omega)).symm
  · rw [chunksOf_cons_eq c l h]
    have ih := chunksOf_length c (l.drop (c + 1))
    have hpos : 1 ≤ l.length := by
      rcases l with _ | ⟨x, xs⟩
      · simp at h
      · simp
    simp only [List.length_cons, ih, List.length_drop]
    have hr : l.length + c = (l.length - 1) + (c + 1) := by omega
    rw [hr, Nat.add_div_right _ (by omega)]
    rcases Nat.le_total (c + 1) l.length with hle | hle
    · have h1 : l.length - (c + 1) + c = l.length - 1 := by omega
      rw [h1]
    · have h1 : l.length - (c + 1) = 0 := by omega
      rw [h1, Nat.zero_add, Nat.div_eq_of_lt (by omega),
        Nat.div_eq_of_lt (by omega)]
termination_by l.length
decreasing_by
  simp only [List.length_drop]
  rcases l with _ | ⟨x, xs⟩
  · simp at h
  · simp only [List.length_cons]; omega

theorem chunksOf_take_flatten (c : Nat) (l : List MsgId) (k : Nat) :
    ((chunksOf (c + 1) l).take k).flatten = l.take (k * (c + 1)) := by
  induction k generalizing l with
  | zero => simp
  | succ k ih =>
    by_cases h : l = []
    · subst h; simp [chunksOf_nil]
    · rw [chunksOf_cons_eq c l h]
      simp only [List.take_succ_cons, List.flatten_cons, ih (l.drop (c + 1))]
      rw [← List.take_add]
      congr 1
      ring

/-! ### Phase-1 (label search loop) characterization -/

theorem labelSearchLoop_spec (P : String → List PageResult) (q : String → String)
    (n : Nat) (senders : List String) :
    ∀ i ids errs st,
      (labelSearchLoop P q n i ids errs st senders).1.done = st.done ∧
      (labelSearchLoop P q n i ids errs st senders).1.error = st.error ∧
      (labelSearchLoop P q n i ids errs st senders).1.total_senders = st.total_senders ∧
      (labelSearchLoop P q n i ids errs st senders).1.affected_count = st.affected_count ∧
      (labelSearchLoop P q n i ids errs st senders).2.1 =
        ids ++ (senders.map (senderIds P q)).flatten ∧
      (labelSearchLoop P q n i ids errs st senders).2.2.1 =
        errs ++ senders.filterMap (senderErr P q) ∧
      listCalls (labelSearchLoop P q n i ids errs st senders).2.2.2 =
        (senders.map (fun s => List.replicate (senderCalls P q s) (q s))).flatten ∧
      progressWrites (labelSearchLoop P q n i ids errs st senders).2.2.2 =
        (List.range' i senders.length).map (fun j => j * 40 / n) ∧
      batchCalls (labelSearchLoop P q n i ids errs st senders).2.2.2 = [] := by
  induction senders with
  | nil =>
    intro i ids errs st
    simp [labelSearchLoop, listCalls, progressWrites, batchCalls]
  | cons s rest ih =>
    intro i ids errs st
    rcases hsc : searchCalls true 0 (P (q s)) with ⟨res, ncalls⟩
    have hids : res = .ok (senderIds P q s) ∨
        ∃ e, res = .error e ∧ senderErr P q s = some (s ++ ": " ++ e) := by
      cases res with
      | ok msgs => left; simp [senderIds, senderSearch, hsc]
      | error e => right; exact ⟨e, rfl, by simp [senderErr, senderSearch, hsc]⟩
    have hcalls : senderCalls P q s = ncalls := by simp [senderCalls, senderSearch, hsc]
    rcases hids with hok | ⟨e, herr, hserr⟩
    · have hnone : senderErr P q s = none := by
        simp only [senderErr, senderSearch, hsc, hok]
      simp only [labelSearchLoop, hsc, hok]
      obtain ⟨h1, h2, h3, h4, h5, h6, h7, h8, h9⟩ :=
        ih (i + 1) (ids ++ senderIds P q s) errs
          { st with current_sender := i + 1, progress := i * 40 / n,
                    message := s!"Finding emails from {s}..." }
      refine ⟨by simpa using h1, by simpa using h2, by simpa using h3,
        by simpa using h4, ?_, ?_, ?_, ?_, ?_⟩
      · simp [h5]
      · simp [h6, hnone]
      · simp [listCalls_append, h7, listCalls, listCalls_replicate_listCall, hcalls]
      · simp [progressWrites_append, progressWrites, h8,
          progressWrites_replicate_listCall, List.range'_succ]
      · simp [batchCalls_append, batchCalls, h9, batchCalls_replicate_listCall]
    · subst herr
      simp only [labelSearchLoop, hsc]
      obtain ⟨h1, h2, h3, h4, h5, h6, h7, h8, h9⟩ :=
        ih (i + 1) ids (errs ++ [s ++ ": " ++ e])
          { st with current_sender := i + 1, progress := i * 40 / n,
                    message := s!"Finding emails from {s}..." }
      refine ⟨by simpa using h1, by simpa using h2, by simpa using h3,
        by simpa using h4, ?_, ?_, ?_, ?_, ?_⟩
      · have : senderIds P q s = [] := by simp [senderIds, senderSearch, hsc]
        simp [h5, this]
      · simp [h6, hserr]
      · simp [listCalls_append, h7, listCalls, listCalls_replicate_listCall, hcalls]
      · simp [progressWrites_append, progressWrites, h8,
          progressWrites_replicate_listCall, List.range'_succ]
      · simp [batchCalls_append, batchCalls, h9, batchCalls_replicate_listCall]

/-! ### Phase-2 (label batch loop) characterization -/

theorem map_range_succ_shift (f : Nat → Nat) (m : Nat) :
    (List.range (m + 1)).map f = f 0 :: (List.range m).map (fun j => f (j + 1)) := by
  rw [List.range_succ_eq_map, List.map_cons, List.map_map]
  rfl

theorem labelBatchLoop_spec_ok (batchErr : Nat → Option String) (tag verb : String)
    (total : Nat) (chunks : List (List MsgId)) (hok : ∀ k, batchErr k = none) :
    ∀ k labeled st,
      (labelBatchLoop batchErr tag verb total k labeled st chunks).1.done = st.done ∧
      (labelBatchLoop batchErr tag verb total k labeled st chunks).1.error = st.error ∧
      (labelBatchLoop batchErr tag verb total k labeled st chunks).1.total_senders
        = st.total_senders ∧
      (labelBatchLoop batchErr tag verb total k labeled st chunks).2.1 =
        labeled + chunks.flatten.length ∧
      (labelBatchLoop batchErr tag verb total k labeled st chunks).2.2.1 = none ∧
      batchCalls (labelBatchLoop batchErr tag verb total k labeled st chunks).2.2.2
        = chunks ∧
      listCalls (labelBatchLoop batchErr tag verb total k labeled st chunks).2.2.2
        = [] ∧
      progressWrites (labelBatchLoop batchErr tag verb total k labeled st chunks).2.2.2
        = (List.range chunks.length).map
            (fun j => 40 + (labeled + ((chunks.take (j + 1)).flatten).length) * 60 / total) := by
  induction chunks with
  | nil =>
    intro k labeled st
    simp [labelBatchLoop, batchCalls, listCalls, progressWrites]
  | cons ch rest ih =>
    intro k labeled st
    simp only [labelBatchLoop, hok k]
    obtain ⟨h1, h2, h3, h4, h5, h6, h7, h8⟩ :=
      ih (k + 1) (labeled + ch.length)
        { st with affected_count := labeled + ch.length,
                  progress := 40 + (labeled + ch.length) * 60 / total,
                  message := s!"{verb} {labeled + ch.length}/{total} emails..." }
    refine ⟨by simpa using h1, by simpa using h2, by simpa using h3, ?_, by simpa using h5,
      ?_, ?_, ?_⟩
    · simp [h4, Nat.add_assoc]
    · simp [batchCalls, h6]
    · simp [listCalls, h7]
    · simp only [progressWrites, h8, List.length_cons, map_range_succ_shift,
        List.cons.injEq]
      refine ⟨by simp, ?_⟩
      apply List.map_congr_left
      intro j hj
      simp [List.take_succ_cons, Nat.add_assoc]

theorem labelBatchLoop_spec_fail (batchErr : Nat → Option String) (tag verb : String)
    (total : Nat) (e : String) (f : Nat) :
    ∀ (chunks : List (List MsgId)) k labeled st,
      (∀ j, j < f → batchErr (k + j) = none) → batchErr (k + f) = some e →
      f < chunks.length →
      (labelBatchLoop batchErr tag verb total k labeled st chunks).1.done = st.done ∧
      (labelBatchLoop batchErr tag verb total k labeled st chunks).1.error = st.error ∧
      (labelBatchLoop batchErr tag verb total k labeled st chunks).1.total_senders
        = st.total_senders ∧
      (labelBatchLoop batchErr tag verb total k labeled st chunks).2.1 =
        labeled + ((chunks.take f).flatten).length ∧
      (labelBatchLoop batchErr tag verb total k labeled st chunks).2.2.1 =
        some (tag ++ e) ∧
      batchCalls (labelBatchLoop batchErr tag verb total k labeled st chunks).2.2.2
        = chunks.take (f + 1) ∧
      listCalls (labelBatchLoop batchErr tag verb total k labeled st chunks).2.2.2
        = [] := by
  induction f with
  | zero =>
    intro chunks k labeled st _ hfail hlt
    rcases chunks with _ | ⟨ch, rest⟩
    · simp at hlt
    · simp only [Nat.add_zero] at hfail
      simp [labelBatchLoop, hfail, batchCalls, listCalls]
  | succ f ih =>
    intro chunks k labeled st hbefore hfail hlt
    rcases chunks with _ | ⟨ch, rest⟩
    · simp at hlt
    · have h0 : batchErr k = none := by
        have := hbefore 0 (by omega)
        simpa using this
      simp only [labelBatchLoop, h0]
      have hb : ∀ j, j < f → batchErr (k + 1 + j) = none := by
        intro j hj
        have := hbefore (j + 1) (by omega)
        rwa [show k + (j + 1) = k + 1 + j by omega] at this
      have hf : batchErr (k + 1 + f) = some e := by
        rwa [show k + (f + 1) = k + 1 + f by omega] at hfail
      obtain ⟨h1, h2, h3, h4, h5, h6, h7⟩ :=
        ih rest (k + 1) (labeled + ch.length)
          { st with affected_count := labeled + ch.length,
                    progress := 40 + (labeled + ch.length) * 60 / total,
                    message := s!"{verb} {labeled + ch.length}/{total} emails..." }
          hb hf (by simpa using Nat.lt_of_succ_lt_succ hlt)
      refine ⟨by simpa using h1, by simpa using h2, by simpa using h3, ?_,
        by simpa using h5, ?_, ?_⟩
      · simp [h4, List.take_succ_cons, Nat.add_assoc]
      · simp [batchCalls, h6, List.take_succ_cons]
      · simp [listCalls, h7]

theorem labelBatchLoop_writes (batchErr : Nat → Option String) (tag verb : String)
    (total : Nat) (chunks : List (List MsgId)) :
    ∀ k labeled st, ∃ m, m ≤ chunks.length ∧
      progressWrites (labelBatchLoop batchErr tag verb total k labeled st chunks).2.2.2
        = (List.range m).map
            (fun j => 40 + (labeled + ((chunks.take (j + 1)).flatten).length) * 60 / total) := by
  induction chunks with
  | nil =>
    intro k labeled st
    exact ⟨0, Nat.le_refl 0, by simp [labelBatchLoop, progressWrites]⟩
  | cons ch rest ih =>
    intro k labeled st
    rcases h : batchErr k with _ | e
    · obtain ⟨m, hm, hw⟩ :=
        ih (k + 1) (labeled + ch.length)
          { st with affected_count := labeled + ch.length,
                    progress := 40 + (labeled + ch.length) * 60 / total,
                    message := s!"{verb} {labeled + ch.length}/{total} emails..." }
      refine ⟨m + 1, by simpa using Nat.succ_le_succ hm, ?_⟩
      simp only [labelBatchLoop, h]
      simp only [progressWrites, hw, map_range_succ_shift, List.cons.injEq]
      refine ⟨by simp, ?_⟩
      apply List.map_congr_left
      intro j hj
      simp [List.take_succ_cons, Nat.add_assoc]
    · exact ⟨0, Nat.zero_le _, by simp [labelBatchLoop, h, progressWrites]⟩

/-! ### Important-operation loop characterization -/

theorem batchCalls_map_batchCall (l : List (List MsgId)) :
    batchCalls (l.map Event.batchCall) = l := by
  induction l with
  | nil => rfl
  | cons x xs ih => simp [batchCalls, ih]

theorem progressWrites_map_batchCall (l : List (List MsgId)) :
    progressWrites (l.map Event.batchCall) = [] := by
  induction l with
  | nil => rfl
  | cons x xs ih => simp [progressWrites, ih]

theorem listCalls_map_batchCall (l : List (List MsgId)) :
    listCalls (l.map Event.batchCall) = [] := by
  induction l with
  | nil => rfl
  | cons x xs ih => simp [listCalls, ih]

theorem impBatchLoop_ok (batchErr : Nat → Option String)
    (hok : ∀ k, batchErr k = none) (chunks : List (List MsgId)) :
    ∀ k ta, impBatchLoop batchErr k ta chunks =
      (ta + chunks.flatten.length, k + chunks.length, none, chunks.map Event.batchCall) := by
  induction chunks with
  | nil => intro k ta; simp [impBatchLoop]
  | cons ch rest ih =>
    intro k ta
    simp only [impBatchLoop, hok k, ih (k + 1) (ta + ch.length)]
    simp [Nat.add_assoc]
    omega

theorem impBatchLoop_fail (batchErr : Nat → Option String) (e : String) (f : Nat) :
    ∀ (chunks : List (List MsgId)) k ta,
      (∀ j, j < f → batchErr (k + j) = none) → batchErr (k + f) = some e →
      f < chunks.length →
      impBatchLoop batchErr k ta chunks =
        (ta + ((chunks.take f).flatten).length, k + f + 1, some e,
          (chunks.take (f + 1)).map Event.batchCall) := by
  induction f with
  | zero =>
    intro chunks k ta _ hfail hlt
    rcases chunks with _ | ⟨ch, rest⟩
    · simp at hlt
    · simp only [Nat.add_zero] at hfail
      simp [impBatchLoop, hfail]
  | succ f ih =>
    intro chunks k ta hbefore hfail hlt
    rcases chunks with _ | ⟨ch, rest⟩
    · simp at hlt
    · have h0 : batchErr k = none := by simpa using hbefore 0 (by omega)
      have hb : ∀ j, j < f → batchErr (k + 1 + j) = none := by
        intro j hj
        have := hbefore (j + 1) (by omega)
        rwa [show k + (j + 1) = k + 1 + j by omega] at this
      have hf : batchErr (k + 1 + f) = some e := by
        rwa [show k + (f + 1) = k + 1 + f by omega] at hfail
      simp only [impBatchLoop, h0,
        ih rest (k + 1) (ta + ch.length) hb hf (by simpa using Nat.lt_of_succ_lt_succ hlt)]
      simp [List.take_succ_cons, Nat.add_assoc]
      omega

theorem impBatchLoop_writes (batchErr : Nat → Option String) (chunks : List (List MsgId)) :
    ∀ k ta, progressWrites (impBatchLoop batchErr k ta chunks).2.2.2 = [] := by
  induction chunks with
  | nil => intro k ta; simp [impBatchLoop, progressWrites]
  | cons ch rest ih =>
    intro k ta
    rcases h : batchErr k with _ | e
    · simp only [impBatchLoop, h]
      rcases hr : impBatchLoop batchErr (k + 1) (ta + ch.length) rest with ⟨aF, kF, errF, evs⟩
      have := ih (k + 1) (ta + ch.length)
      rw [hr] at this
      simpa [progressWrites] using this
    · simp [impBatchLoop, h, progressWrites]

theorem impSenderLoop_ok (env : SenderEnv) (action : String) (n : Nat)
    (senders : List String)
    (hsearch : ∀ s ∈ senders, senderErr env.pages (fun s => "from:" ++ s) s = none)
    (hok : ∀ k, env.batchErr k = none) :
    ∀ i k ta st,
      (impSenderLoop env action n i k ta st senders).1.done = st.done ∧
      (impSenderLoop env action n i k ta st senders).1.error = st.error ∧
      (impSenderLoop env action n i k ta st senders).1.total_senders = st.total_senders ∧
      (impSenderLoop env action n i k ta st senders).1.affected_count
        = st.affected_count ∧
      (impSenderLoop env action n i k ta st senders).2.1 =
        ta + ((senders.map (senderIds env.pages (fun s => "from:" ++ s))).flatten).length ∧
      (impSenderLoop env action n i k ta st senders).2.2.2.1 = none ∧
      listCalls (impSenderLoop env action n i k ta st senders).2.2.2.2 =
        (senders.map (fun s =>
          List.replicate (senderCalls env.pages (fun s => "from:" ++ s) s)
            ("from:" ++ s))).flatten ∧
      progressWrites (impSenderLoop env action n i k ta st senders).2.2.2.2 =
        (List.range' i senders.length).map (fun j => j * 100 / n) ∧
      batchCalls (impSenderLoop env action n i k ta st senders).2.2.2.2 =
        (senders.map (fun s =>
          chunksOf 100 (senderIds env.pages (fun s => "from:" ++ s) s))).flatten := by
  induction senders with
  | nil =>
    intro i k ta st
    simp [impSenderLoop, listCalls, progressWrites, batchCalls]
  | cons s rest ih =>
    intro i k ta st
    rcases hsc : searchCalls true 0 (env.pages ("from:" ++ s)) with ⟨res, ncalls⟩
    have hok_s : res = .ok (senderIds env.pages (fun s => "from:" ++ s) s) := by
      have := hsearch s (by simp)
      cases res with
      | ok msgs => simp [senderIds, senderSearch, hsc]
      | error e => simp [senderErr, senderSearch, hsc] at this
    have hcalls : senderCalls env.pages (fun s => "from:" ++ s) s = ncalls := by
      simp [senderCalls, senderSearch, hsc]
    subst hok_s
    simp only [impSenderLoop, hsc,
      impBatchLoop_ok env.batchErr hok _ k ta]
    obtain ⟨h1, h2, h3, h4, h5, h6, h7, h8, h9⟩ :=
      ih (fun x hx => hsearch x (by simp [hx])) (i + 1)
        (k + (chunksOf 100 (senderIds env.pages (fun s => "from:" ++ s) s)).length)
        (ta + ((chunksOf 100 (senderIds env.pages (fun s => "from:" ++ s) s)).flatten).length)
        { st with current_sender := i + 1,
                  message := s!"{action} emails from {s}...",
                  progress := i * 100 / n }
    refine ⟨by simpa using h1, by simpa using h2, by simpa using h3, by simpa using h4,
      ?_, by simpa using h6, ?_, ?_, ?_⟩
    · rw [h5]
      simp [chunksOf_flatten 99, Nat.add_assoc]
    · simp only [List.length_flatten] at h7
      simp [listCalls_append, listCalls, listCalls_replicate_listCall,
        listCalls_map_batchCall, h7, hcalls]
    · simp only [List.length_flatten] at h8
      simp [progressWrites_append, progressWrites, progressWrites_replicate_listCall,
        progressWrites_map_batchCall, h8, List.range'_succ]
    · simp only [List.length_flatten] at h9
      simp [batchCalls_append, batchCalls, batchCalls_replicate_listCall,
        batchCalls_map_batchCall, h9]

theorem impSenderLoop_writes (env : SenderEnv) (action : String) (n : Nat)
    (senders : List String) :
    ∀ i k ta st, ∃ m, m ≤ senders.length ∧
      progressWrites (impSenderLoop env action n i k ta st senders).2.2.2.2 =
        (List.range' i m).map (fun j => j * 100 / n) := by
  induction senders with
  | nil =>
    intro i k ta st
    exact ⟨0, Nat.le_refl 0, by simp [impSenderLoop, progressWrites]⟩
  | cons s rest ih =>
    intro i k ta st
    rcases hsc : searchCalls true 0 (env.pages ("from:" ++ s)) with ⟨res, ncalls⟩
    cases res with
    | error e =>
      refine ⟨1, by simp, ?_⟩
      simp [impSenderLoop, hsc, progressWrites, progressWrites_append,
        progressWrites_replicate_listCall, List.range'_succ]
    | ok msgs =>
      rcases hb : impBatchLoop env.batchErr k ta (chunksOf 100 msgs)
        with ⟨aF, kF, berr, bevs⟩
      have hbw : progressWrites bevs = [] := by
        have := impBatchLoop_writes env.batchErr (chunksOf 100 msgs) k ta
        rw [hb] at this
        simpa using this
      cases berr with
      | some e =>
        refine ⟨1, by simp, ?_⟩
        simp [impSenderLoop, hsc, hb, progressWrites, progressWrites_append,
          progressWrites_replicate_listCall, hbw, List.range'_succ]
      | none =>
        obtain ⟨m, hm, hw⟩ := ih (i + 1) kF aF
          { st with current_sender := i + 1,
                    message := s!"{action} emails from {s}...",
                    progress := i * 100 / n }
        refine ⟨m + 1, by simpa using Nat.succ_le_succ hm, ?_⟩
        simp [impSenderLoop, hsc, hb, progressWrites, progressWrites_append,
          progressWrites_replicate_listCall, hbw, hw, List.range'_succ]

/-! ### Mark-read batch loop characterization -/

theorem mrBatchLoop_done (batchErr : Nat → Option String) (total : Nat)
    (chunks : List (List MsgId)) :
    ∀ k marked st, (mrBatchLoop batchErr total k marked st chunks).1.done = true := by
  induction chunks with
  | nil => intro k marked st; simp [mrBatchLoop]
  | cons ch rest ih =>
    intro k marked st
    rcases h : batchErr k with _ | e
    · simp only [mrBatchLoop, h]
      exact ih (k + 1) (marked + ch.length) _
    · simp [mrBatchLoop, h]

theorem mrBatchLoop_ok (batchErr : Nat → Option String) (total : Nat)
    (hok : ∀ k, batchErr k = none) (chunks : List (List MsgId)) :
    ∀ k marked st, st.marked_count = marked →
      (mrBatchLoop batchErr total k marked st chunks).1.error = st.error ∧
      (mrBatchLoop batchErr total k marked st chunks).1.marked_count =
        marked + chunks.flatten.length ∧
      batchCalls (mrBatchLoop batchErr total k marked st chunks).2 = chunks ∧
      listCalls (mrBatchLoop batchErr total k marked st chunks).2 = [] ∧
      progressWrites (mrBatchLoop batchErr total k marked st chunks).2 =
        (List.range chunks.length).map
          (fun j => (marked + ((chunks.take (j + 1)).flatten).length) * 100 / total) := by
  induction chunks with
  | nil =>
    intro k marked st hm
    simp [mrBatchLoop, batchCalls, listCalls, progressWrites, hm]
  | cons ch rest ih =>
    intro k marked st hm
    simp only [mrBatchLoop, hok k]
    obtain ⟨h1, h2, h3, h4, h5⟩ :=
      ih (k + 1) (marked + ch.length)
        { st with progress := (marked + ch.length) * 100 / total,
                  message := s!"Marked {marked + ch.length}/{total} as read",
                  marked_count := marked + ch.length }
        (by simp)
    refine ⟨by simpa using h1, ?_, ?_, ?_, ?_⟩
    · simp [h2, Nat.add_assoc]
    · simp [batchCalls, h3]
    · simp [listCalls, h4]
    · simp only [progressWrites, h5, List.length_cons, map_range_succ_shift,
        List.cons.injEq]
      refine ⟨by simp, ?_⟩
      apply List.map_congr_left
      intro j hj
      simp [List.take_succ_cons, Nat.add_assoc]

theorem mrBatchLoop_fail (batchErr : Nat → Option String) (total : Nat) (e : String)
    (f : Nat) :
    ∀ (chunks : List (List MsgId)) k marked st,
      (∀ j, j < f → batchErr (k + j) = none) → batchErr (k + f) = some e →
      f < chunks.length → st.marked_count = marked →
      (mrBatchLoop batchErr total k marked st chunks).1.error = some e ∧
      (mrBatchLoop batchErr total k marked st chunks).1.marked_count =
        marked + ((chunks.take f).flatten).length ∧
      batchCalls (mrBatchLoop batchErr total k marked st chunks).2 =
        chunks.take (f + 1) ∧
      listCalls (mrBatchLoop batchErr total k marked st chunks).2 = [] := by
  induction f with
  | zero =>
    intro chunks k marked st _ hfail hlt hm
    rcases chunks with _ | ⟨ch, rest⟩
    · simp at hlt
    · simp only [Nat.add_zero] at hfail
      simp [mrBatchLoop, hfail, batchCalls, listCalls, hm]
  | succ f ih =>
    intro chunks k marked st hbefore hfail hlt hm
    rcases chunks with _ | ⟨ch, rest⟩
    · simp at hlt
    · have h0 : batchErr k = none := by simpa using hbefore 0 (by omega)
      simp only [mrBatchLoop, h0]
      have hb : ∀ j, j < f → batchErr (k + 1 + j) = none := by
        intro j hj
        have := hbefore (j + 1) (by omega)
        rwa [show k + (j + 1) = k + 1 + j by omega] at this
      have hf : batchErr (k + 1 + f) = some e := by
        rwa [show k + (f + 1) = k + 1 + f by omega] at hfail
      obtain ⟨h1, h2, h3, h4⟩ :=
        ih rest (k + 1) (marked + ch.length)
          { st with progress := (marked + ch.length) * 100 / total,
                    message := s!"Marked {marked + ch.length}/{total} as read",
                    marked_count := marked + ch.length }
          hb hf (by simpa using Nat.lt_of_succ_lt_succ hlt) (by simp)
      refine ⟨by simpa using h1, ?_, ?_, ?_⟩
      · simp [h2, List.take_succ_cons, Nat.add_assoc]
      · simp [batchCalls, h3, List.take_succ_cons]
      · simp [listCalls, h4]

theorem mrBatchLoop_writes (batchErr : Nat → Option String) (total : Nat)
    (chunks : List (List MsgId)) :
    ∀ k marked st, ∃ m, m ≤ chunks.length ∧
      progressWrites (mrBatchLoop batchErr total k marked st chunks).2 =
        (List.range m).map
          (fun j => (marked + ((chunks.take (j + 1)).flatten).length) * 100 / total) := by
  induction chunks with
  | nil =>
    intro k marked st
    exact ⟨0, Nat.le_refl 0, by simp [mrBatchLoop, progressWrites]⟩
  | cons ch rest ih =>
    intro k marked st
    rcases h : batchErr k with _ | e
    · obtain ⟨m, hm, hw⟩ :=
        ih (k + 1) (marked + ch.length)
          { st with progress := (marked + ch.length) * 100 / total,
                    message := s!"Marked {marked + ch.length}/{total} as read",
                    marked_count := marked + ch.length }
      refine ⟨m + 1, by simpa using Nat.succ_le_succ hm, ?_⟩
      simp only [mrBatchLoop, h]
      simp only [progressWrites, hw, map_range_succ_shift, List.cons.injEq]
      refine ⟨by simp, ?_⟩
      apply List.map_congr_left
      intro j hj
      simp [List.take_succ_cons, Nat.add_assoc]
    · exact ⟨0, Nat.zero_le _, by simp [mrBatchLoop, h, progressWrites]⟩

/-! ### Bounded-search lemmas -/

theorem searchLoop_pure (limit : Nat) (ps : List (List MsgId)) :
    ∀ acc calls, ∃ out kout,
      searchLoop false limit acc calls (ps.map Except.ok) = (.ok out, kout) ∧
      out.length ≤ acc.length + ps.flatten.length ∧
      min limit (acc.length + ps.flatten.length) ≤ out.length := by
  induction ps with
  | nil =>
    intro acc calls
    refine ⟨acc, calls, by simp [searchLoop], by simp, by simp⟩
  | cons p rest ih =>
    intro acc calls
    by_cases hl : limit ≤ acc.length
    · refine ⟨acc, calls, by simp [searchLoop, hl], by simp, ?_⟩
      exact le_trans (min_le_left _ _) hl
    · obtain ⟨out, kout, heq, hub, hlb⟩ := ih (acc ++ p) (calls + 1)
      refine ⟨out, kout, ?_, ?_, ?_⟩
      · simp [searchLoop, hl, heq]
      · simpa [Nat.add_assoc] using hub
      · simpa [Nat.add_assoc] using hlb

theorem searchCalls_pure (limit : Nat) (ps : List (List MsgId)) :
    ∃ out kout,
      searchCalls false limit (ps.map Except.ok) = (.ok out, kout) ∧
      out.length ≤ ps.flatten.length ∧
      min limit ps.flatten.length ≤ out.length := by
  rcases ps with _ | ⟨p, rest⟩
  · exact ⟨[], 1, by simp [searchCalls], by simp, by simp⟩
  · obtain ⟨out, kout, heq, hub, hlb⟩ := searchLoop_pure limit rest p 1
    refine ⟨out, kout, by simp [searchCalls, heq], ?_, ?_⟩
    · simpa using hub
    · simpa using hlb

theorem markReadSelect_pure (count : Nat) (ps : List (List MsgId)) :
    ∃ sel, markReadSelect count false (ps.map Except.ok) = .ok sel ∧
      sel.length ≤ count ∧
      (count ≤ ps.flatten.length → sel.length = count) := by
  obtain ⟨out, kout, heq, hub, hlb⟩ := searchCalls_pure count ps
  refine ⟨out.take count, by simp [markReadSelect, heq], by simp, ?_⟩
  intro hc
  have : min count ps.flatten.length = count := Nat.min_eq_left hc
  rw [this] at hlb
  simp [Nat.min_eq_left hlb]

/-! ### Executor-level happy-path characterizations -/

theorem mark_read_ok_spec (count : Int) (fq : Option String) (env : MarkReadEnv)
    (sel : List MsgId)
    (hc : ¬ count < 0) (ha : env.auth = none)
    (hsel : markReadSelect count.toNat (count == 0) env.pages = .ok sel)
    (hne : sel ≠ [])
    (hok : ∀ k, env.batchErr k = none) :
    (mark_emails_as_read count fq env).1.done = true ∧
    (mark_emails_as_read count fq env).1.error = none ∧
    (mark_emails_as_read count fq env).1.marked_count = sel.length ∧
    batchCalls (mark_emails_as_read count fq env).2 = chunksOf 100 sel ∧
    progressWrites (mark_emails_as_read count fq env).2 =
      (List.range (chunksOf 100 sel).length).map
        (fun j => (((chunksOf 100 sel).take (j + 1)).flatten).length * 100 / sel.length) := by
  have hlen : sel.length ≠ 0 := by simpa using hne
  obtain ⟨h1, h2, h3, h4, h5⟩ :=
    mrBatchLoop_ok env.batchErr sel.length hok (chunksOf 100 sel) 0 0
      { reset_mark_read with message := "Finding unread emails..." } (by simp [reset_mark_read])
  have hflat : (chunksOf 100 sel).flatten = sel := chunksOf_flatten 99 sel
  simp only [mark_emails_as_read, hc, if_false, ha, hsel, hlen, if_neg hlen]
  refine ⟨?_, ?_, ?_, ?_, ?_⟩
  · exact mrBatchLoop_done env.batchErr sel.length (chunksOf 100 sel) 0 0 _
  · simpa [reset_mark_read] using h1
  · rw [h2, hflat]
    simp
  · simp [batchCalls_append, batchCalls_replicate_listCall, h3]
  · simp [progressWrites_append, progressWrites_replicate_listCall, h5]

/-! ### Label-apply executor characterizations -/

theorem labelApply_ok_spec (label_id : String) (senders : List String) (env : SenderEnv)
    (hl : ¬ isBlank label_id = true) (hs : ¬ senders = []) (ha : env.auth = none)
    (hU : (senders.map (senderIds env.pages (fun s => "from:" ++ s))).flatten ≠ [])
    (hok : ∀ k, env.batchErr k = none) :
    (apply_label_to_senders_background label_id senders env).1.done = true ∧
    (apply_label_to_senders_background label_id senders env).1.progress = 100 ∧
    (apply_label_to_senders_background label_id senders env).1.total_senders
      = senders.length ∧
    (apply_label_to_senders_background label_id senders env).1.affected_count =
      ((senders.map (senderIds env.pages (fun s => "from:" ++ s))).flatten).length ∧
    (apply_label_to_senders_background label_id senders env).1.error =
      (if senders.filterMap (senderErr env.pages (fun s => "from:" ++ s)) = [] then none
       else some ("Some errors: " ++ String.intercalate "; "
         ((senders.filterMap (senderErr env.pages (fun s => "from:" ++ s))).take 3))) ∧
    listCalls (apply_label_to_senders_background label_id senders env).2 =
      (senders.map (fun s =>
        List.replicate (senderCalls env.pages (fun s => "from:" ++ s) s)
          ("from:" ++ s))).flatten ∧
    batchCalls (apply_label_to_senders_background label_id senders env).2 =
      chunksOf 1000 ((senders.map (senderIds env.pages (fun s => "from:" ++ s))).flatten) ∧
    progressWrites (apply_label_to_senders_background label_id senders env).2 =
      (List.range' 0 senders.length).map (fun i => i * 40 / senders.length) ++
      ((List.range (chunksOf 1000
          ((senders.map (senderIds env.pages (fun s => "from:" ++ s))).flatten)).length).map
        (fun j => 40 + (((chunksOf 1000
            ((senders.map (senderIds env.pages (fun s => "from:" ++ s))).flatten)).take
              (j + 1)).flatten).length * 60 /
          ((senders.map (senderIds env.pages (fun s => "from:" ++ s))).flatten).length) ++
      [100]) := by
  rcases hP : labelSearchLoop env.pages (fun s => "from:" ++ s) senders.length 0 [] []
      { reset_label_operation with
          total_senders := senders.length,
          message := "Finding emails to label..." } senders
    with ⟨st1, ids1, errs1, evs1⟩
  have hspec := labelSearchLoop_spec env.pages (fun s => "from:" ++ s) senders.length
    senders 0 [] []
    { reset_label_operation with
        total_senders := senders.length,
        message := "Finding emails to label..." }
  rw [hP] at hspec
  obtain ⟨p1, p2, p3, p4, p5, p6, p7, p8, p9⟩ := hspec
  simp only at p1 p2 p3 p4 p5 p6 p7 p8 p9
  simp only [List.nil_append] at p5 p6
  have hids1 : ids1 ≠ [] := by rw [p5]; exact hU
  rcases hB : labelBatchLoop env.batchErr "Batch label error: " "Labeled" ids1.length 0 0
      { st1 with message := s!"Applying label to {ids1.length} emails..." }
      (chunksOf 1000 ids1)
    with ⟨st2, labeled, bfail, evs2⟩
  have hbspec := labelBatchLoop_spec_ok env.batchErr "Batch label error: " "Labeled"
    ids1.length (chunksOf 1000 ids1) hok 0 0
    { st1 with message := s!"Applying label to {ids1.length} emails..." }
  rw [hB] at hbspec
  obtain ⟨q1, q2, q3, q4, q5, q6, q7, q8⟩ := hbspec
  simp only at q1 q2 q3 q4 q5 q6 q7 q8
  simp only [apply_label_to_senders_background, hl, Bool.false_eq_true, if_false, hs, ha, hP, hids1, hB]
  subst q5
  have hts : st2.total_senders = senders.length := by
    rw [q3]
    simpa using p3
  have haff : labeled = ids1.length := by
    rw [q4, chunksOf_flatten 999]
    simp
  have herr2 : st2.error = none := by
    rw [q2]
    simpa using p2
  simp only [Option.toList_none, List.append_nil]
  rw [← p6]
  refine ⟨?_, ?_, ?_, ?_, ?_, ?_, ?_, ?_⟩
  · split <;> rfl
  · split <;> rfl
  · split <;> exact hts
  · split <;> simp only [haff, p5]
  · split <;> rename_i hcase
    · simp [hcase, herr2]
    · simp [hcase]
  · simp [listCalls_append, listCalls, p7, q7]
  · simp [batchCalls_append, batchCalls, p9, q6, p5]
  · rw [progressWrites_append, progressWrites_append, p8, q8]
    simp [progressWrites, p5]

theorem labelApply_empty_spec (label_id : String) (senders : List String)
    (env : SenderEnv)
    (hl : ¬ isBlank label_id = true) (hs : ¬ senders = []) (ha : env.auth = none)
    (hU : (senders.map (senderIds env.pages (fun s => "from:" ++ s))).flatten = []) :
    (apply_label_to_senders_background label_id senders env).1.done = true ∧
    (apply_label_to_senders_background label_id senders env).1.progress = 100 ∧
    (apply_label_to_senders_background label_id senders env).1.error = none ∧
    (apply_label_to_senders_background label_id senders env).1.message =
      "No emails found to label" ∧
    (apply_label_to_senders_background label_id senders env).1.affected_count = 0 ∧
    batchCalls (apply_label_to_senders_background label_id senders env).2 = [] ∧
    listCalls (apply_label_to_senders_background label_id senders env).2 =
      (senders.map (fun s =>
        List.replicate (senderCalls env.pages (fun s => "from:" ++ s) s)
          ("from:" ++ s))).flatten ∧
    progressWrites (apply_label_to_senders_background label_id senders env).2 =
      (List.range' 0 senders.length).map (fun i => i * 40 / senders.length) ++ [100] := by
  rcases hP : labelSearchLoop env.pages (fun s => "from:" ++ s) senders.length 0 [] []
      { reset_label_operation with
          total_senders := senders.length,
          message := "Finding emails to label..." } senders
    with ⟨st1, ids1, errs1, evs1⟩
  have hspec := labelSearchLoop_spec env.pages (fun s => "from:" ++ s) senders.length
    senders 0 [] []
    { reset_label_operation with
        total_senders := senders.length,
        message := "Finding emails to label..." }
  rw [hP] at hspec
  obtain ⟨p1, p2, p3, p4, p5, p6, p7, p8, p9⟩ := hspec
  simp only at p1 p2 p3 p4 p5 p6 p7 p8 p9
  simp only [List.nil_append] at p5 p6
  have hids1 : ids1 = [] := by rw [p5]; exact hU
  simp only [apply_label_to_senders_background, hl, Bool.false_eq_true, if_false, hs, ha, hP, hids1,
    if_pos rfl]
  refine ⟨rfl, rfl, by simpa using p2, rfl, by simpa using p4, ?_, ?_, ?_⟩
  · simp [batchCalls_append, batchCalls, p9]
  · simp [listCalls_append, listCalls, p7]
  · simp [progressWrites_append, progressWrites, p8]

theorem labelApply_fail_spec (label_id : String) (senders : List String)
    (env : SenderEnv) (e : String) (f : Nat)
    (hl : ¬ isBlank label_id = true) (hs : ¬ senders = []) (ha : env.auth = none)
    (hU : (senders.map (senderIds env.pages (fun s => "from:" ++ s))).flatten ≠ [])
    (hbefore : ∀ j, j < f → env.batchErr j = none) (hfail : env.batchErr f = some e)
    (hflt : f < (chunksOf 1000
      ((senders.map (senderIds env.pages (fun s => "from:" ++ s))).flatten)).length) :
    (apply_label_to_senders_background label_id senders env).1.done = true ∧
    (apply_label_to_senders_background label_id senders env).1.affected_count =
      (((chunksOf 1000
        ((senders.map (senderIds env.pages (fun s => "from:" ++ s))).flatten)).take
          f).flatten).length ∧
    (apply_label_to_senders_background label_id senders env).1.error =
      some ("Some errors: " ++ String.intercalate "; "
        (((senders.filterMap (senderErr env.pages (fun s => "from:" ++ s))) ++
          ["Batch label error: " ++ e]).take 3)) ∧
    batchCalls (apply_label_to_senders_background label_id senders env).2 =
      (chunksOf 1000
        ((senders.map (senderIds env.pages (fun s => "from:" ++ s))).flatten)).take
          (f + 1) := by
  rcases hP : labelSearchLoop env.pages (fun s => "from:" ++ s) senders.length 0 [] []
      { reset_label_operation with
          total_senders := senders.length,
          message := "Finding emails to label..." } senders
    with ⟨st1, ids1, errs1, evs1⟩
  have hspec := labelSearchLoop_spec env.pages (fun s => "from:" ++ s) senders.length
    senders 0 [] []
    { reset_label_operation with
        total_senders := senders.length,
        message := "Finding emails to label..." }
  rw [hP] at hspec
  obtain ⟨p1, p2, p3, p4, p5, p6, p7, p8, p9⟩ := hspec
  simp only at p1 p2 p3 p4 p5 p6 p7 p8 p9
  simp only [List.nil_append] at p5 p6
  have hids1 : ids1 ≠ [] := by rw [p5]; exact hU
  rcases hB : labelBatchLoop env.batchErr "Batch label error: " "Labeled" ids1.length 0 0
      { st1 with message := s!"Applying label to {ids1.length} emails..." }
      (chunksOf 1000 ids1)
    with ⟨st2, labeled, bfail, evs2⟩
  have hbspec := labelBatchLoop_spec_fail env.batchErr "Batch label error: " "Labeled"
    ids1.length e f (chunksOf 1000 ids1) 0 0
    { st1 with message := s!"Applying label to {ids1.length} emails..." }
    (by simpa using hbefore) (by simpa using hfail) (by rw [p5]; exact hflt)
  rw [hB] at hbspec
  obtain ⟨q1, q2, q3, q4, q5, q6, q7⟩ := hbspec
  simp only at q1 q2 q3 q4 q5 q6 q7
  simp only [apply_label_to_senders_background, hl, Bool.false_eq_true, if_false, hs, ha, hP, hids1, hB]
  subst q5
  have hne : ¬ (errs1 ++ ("Batch label error: " ++ e) :: [] = []) := by simp
  simp only [Option.toList_some, hne, if_false]
  refine ⟨by trivial, ?_, ?_, ?_⟩
  · rw [q4]
    simp [p5]
  · rw [p6]
  · simp [batchCalls_append, batchCalls, p9, q6, p5]

theorem labelRemove_fail_spec (label_id : String) (senders : List String)
    (env : SenderEnv) (e : String) (f : Nat)
    (hl : ¬ isBlank label_id = true) (hs : ¬ senders = []) (ha : env.auth = none)
    (hU : (senders.map (senderIds env.pages
      (fun s => "from:" ++ s ++ " label:" ++ label_id))).flatten ≠ [])
    (hbefore : ∀ j, j < f → env.batchErr j = none) (hfail : env.batchErr f = some e)
    (hflt : f < (chunksOf 1000 ((senders.map (senderIds env.pages
      (fun s => "from:" ++ s ++ " label:" ++ label_id))).flatten)).length) :
    (remove_label_from_senders_background label_id senders env).1.done = true ∧
    (remove_label_from_senders_background label_id senders env).1.affected_count =
      (((chunksOf 1000 ((senders.map (senderIds env.pages
        (fun s => "from:" ++ s ++ " label:" ++ label_id))).flatten)).take
          f).flatten).length ∧
    (remove_label_from_senders_background label_id senders env).1.error =
      some ("Some errors: " ++ String.intercalate "; "
        (((senders.filterMap (senderErr env.pages
            (fun s => "from:" ++ s ++ " label:" ++ label_id))) ++
          ["Batch unlabel error: " ++ e]).take 3)) ∧
    batchCalls (remove_label_from_senders_background label_id senders env).2 =
      (chunksOf 1000 ((senders.map (senderIds env.pages
        (fun s => "from:" ++ s ++ " label:" ++ label_id))).flatten)).take (f + 1) := by
  rcases hP : labelSearchLoop env.pages
      (fun s => "from:" ++ s ++ " label:" ++ label_id) senders.length 0 [] []
      { reset_label_operation with
          total_senders := senders.length,
          message := "Finding emails to unlabel..." } senders
    with ⟨st1, ids1, errs1, evs1⟩
  have hspec := labelSearchLoop_spec env.pages
    (fun s => "from:" ++ s ++ " label:" ++ label_id) senders.length
    senders 0 [] []
    { reset_label_operation with
        total_senders := senders.length,
        message := "Finding emails to unlabel..." }
  rw [hP] at hspec
  obtain ⟨p1, p2, p3, p4, p5, p6, p7, p8, p9⟩ := hspec
  simp only at p1 p2 p3 p4 p5 p6 p7 p8 p9
  simp only [List.nil_append] at p5 p6
  have hids1 : ids1 ≠ [] := by rw [p5]; exact hU
  rcases hB : labelBatchLoop env.batchErr "Batch unlabel error: " "Unlabeled"
      ids1.length 0 0
      { st1 with message := s!"Removing label from {ids1.length} emails..." }
      (chunksOf 1000 ids1)
    with ⟨st2, labeled, bfail, evs2⟩
  have hbspec := labelBatchLoop_spec_fail env.batchErr "Batch unlabel error: "
    "Unlabeled" ids1.length e f (chunksOf 1000 ids1) 0 0
    { st1 with message := s!"Removing label from {ids1.length} emails..." }
    (by simpa using hbefore) (by simpa using hfail) (by rw [p5]; exact hflt)
  rw [hB] at hbspec
  obtain ⟨q1, q2, q3, q4, q5, q6, q7⟩ := hbspec
  simp only at q1 q2 q3 q4 q5 q6 q7
  simp only [remove_label_from_senders_background, hl, Bool.false_eq_true, if_false,
    hs, ha, hP, hids1, hB]
  subst q5
  have hne : ¬ (errs1 ++ ("Batch unlabel error: " ++ e) :: [] = []) := by simp
  simp only [Option.toList_some, hne, if_false]
  refine ⟨by trivial, ?_, ?_, ?_⟩
  · rw [q4]
    simp [p5]
  · rw [p6]
  · simp [batchCalls_append, batchCalls, p9, q6, p5]

/-! ### Label-remove executor characterizations -/

theorem labelRemove_ok_spec (label_id : String) (senders : List String) (env : SenderEnv)
    (hl : ¬ isBlank label_id = true) (hs : ¬ senders = []) (ha : env.auth = none)
    (hU : (senders.map (senderIds env.pages
      (fun s => "from:" ++ s ++ " label:" ++ label_id))).flatten ≠ [])
    (hok : ∀ k, env.batchErr k = none) :
    (remove_label_from_senders_background label_id senders env).1.done = true ∧
    (remove_label_from_senders_background label_id senders env).1.progress = 100 ∧
    (remove_label_from_senders_background label_id senders env).1.total_senders
      = senders.length ∧
    (remove_label_from_senders_background label_id senders env).1.affected_count =
      ((senders.map (senderIds env.pages
        (fun s => "from:" ++ s ++ " label:" ++ label_id))).flatten).length ∧
    (remove_label_from_senders_background label_id senders env).1.error =
      (if senders.filterMap (senderErr env.pages
          (fun s => "from:" ++ s ++ " label:" ++ label_id)) = [] then none
       else some ("Some errors: " ++ String.intercalate "; "
         ((senders.filterMap (senderErr env.pages
           (fun s => "from:" ++ s ++ " label:" ++ label_id))).take 3))) ∧
    listCalls (remove_label_from_senders_background label_id senders env).2 =
      (senders.map (fun s =>
        List.replicate (senderCalls env.pages
          (fun s => "from:" ++ s ++ " label:" ++ label_id) s)
          ("from:" ++ s ++ " label:" ++ label_id))).flatten ∧
    batchCalls (remove_label_from_senders_background label_id senders env).2 =
      chunksOf 1000 ((senders.map (senderIds env.pages
        (fun s => "from:" ++ s ++ " label:" ++ label_id))).flatten) ∧
    progressWrites (remove_label_from_senders_background label_id senders env).2 =
      (List.range' 0 senders.length).map (fun i => i * 40 / senders.length) ++
      ((List.range (chunksOf 1000 ((senders.map (senderIds env.pages
          (fun s => "from:" ++ s ++ " label:" ++ label_id))).flatten)).length).map
        (fun j => 40 + (((chunksOf 1000 ((senders.map (senderIds env.pages
            (fun s => "from:" ++ s ++ " label:" ++ label_id))).flatten)).take
              (j + 1)).flatten).length * 60 /
          ((senders.map (senderIds env.pages
            (fun s => "from:" ++ s ++ " label:" ++ label_id))).flatten).length) ++
      [100]) := by
  rcases hP : labelSearchLoop env.pages
      (fun s => "from:" ++ s ++ " label:" ++ label_id) senders.length 0 [] []
      { reset_label_operation with
          total_senders := senders.length,
          message := "Finding emails to unlabel..." } senders
    with ⟨st1, ids1, errs1, evs1⟩
  have hspec := labelSearchLoop_spec env.pages
    (fun s => "from:" ++ s ++ " label:" ++ label_id) senders.length
    senders 0 [] []
    { reset_label_operation with
        total_senders := senders.length,
        message := "Finding emails to unlabel..." }
  rw [hP] at hspec
  obtain ⟨p1, p2, p3, p4, p5, p6, p7, p8, p9⟩ := hspec
  simp only at p1 p2 p3 p4 p5 p6 p7 p8 p9
  simp only [List.nil_append] at p5 p6
  have hids1 : ids1 ≠ [] := by rw [p5]; exact hU
  rcases hB : labelBatchLoop env.batchErr "Batch unlabel error: " "Unlabeled"
      ids1.length 0 0
      { st1 with message := s!"Removing label from {ids1.length} emails..." }
      (chunksOf 1000 ids1)
    with ⟨st2, labeled, bfail, evs2⟩
  have hbspec := labelBatchLoop_spec_ok env.batchErr "Batch unlabel error: " "Unlabeled"
    ids1.length (chunksOf 1000 ids1) hok 0 0
    { st1 with message := s!"Removing label from {ids1.length} emails..." }
  rw [hB] at hbspec
  obtain ⟨q1, q2, q3, q4, q5, q6, q7, q8⟩ := hbspec
  simp only at q1 q2 q3 q4 q5 q6 q7 q8
  simp only [remove_label_from_senders_background, hl, Bool.false_eq_true, if_false, hs, ha, hP, hids1, hB]
  subst q5
  have hts : st2.total_senders = senders.length := by
    rw [q3]
    simpa using p3
  have haff : labeled = ids1.length := by
    rw [q4, chunksOf_flatten 999]
    simp
  have herr2 : st2.error = none := by
    rw [q2]
    simpa using p2
  simp only [Option.toList_none, List.append_nil]
  rw [← p6]
  refine ⟨?_, ?_, ?_, ?_, ?_, ?_, ?_, ?_⟩
  · split <;> rfl
  · split <;> rfl
  · split <;> exact hts
  · split <;> simp only [haff, p5]
  · split <;> rename_i hcase
    · simp [hcase, herr2]
    · simp [hcase]
  · simp [listCalls_append, listCalls, p7, q7]
  · simp [batchCalls_append, batchCalls, p9, q6, p5]
  · rw [progressWrites_append, progressWrites_append, p8, q8]
    simp [progressWrites, p5]

theorem labelRemove_empty_spec (label_id : String) (senders : List String)
    (env : SenderEnv)
    (hl : ¬ isBlank label_id = true) (hs : ¬ senders = []) (ha : env.auth = none)
    (hU : (senders.map (senderIds env.pages
      (fun s => "from:" ++ s ++ " label:" ++ label_id))).flatten = []) :
    (remove_label_from_senders_background label_id senders env).1.done = true ∧
    (remove_label_from_senders_background label_id senders env).1.progress = 100 ∧
    (remove_label_from_senders_background label_id senders env).1.error = none ∧
    (remove_label_from_senders_background label_id senders env).1.message =
      "No emails found with this label" ∧
    (remove_label_from_senders_background label_id senders env).1.affected_count = 0 ∧
    batchCalls (remove_label_from_senders_background label_id senders env).2 = [] ∧
    listCalls (remove_label_from_senders_background label_id senders env).2 =
      (senders.map (fun s =>
        List.replicate (senderCalls env.pages
          (fun s => "from:" ++ s ++ " label:" ++ label_id) s)
          ("from:" ++ s ++ " label:" ++ label_id))).flatten ∧
    progressWrites (remove_label_from_senders_background label_id senders env).2 =
      (List.range' 0 senders.length).map (fun i => i * 40 / senders.length) ++ [100] := by
  rcases hP : labelSearchLoop env.pages
      (fun s => "from:" ++ s ++ " label:" ++ label_id) senders.length 0 [] []
      { reset_label_operation with
          total_senders := senders.length,
          message := "Finding emails to unlabel..." } senders
    with ⟨st1, ids1, errs1, evs1⟩
  have hspec := labelSearchLoop_spec env.pages
    (fun s => "from:" ++ s ++ " label:" ++ label_id) senders.length
    senders 0 [] []
    { reset_label_operation with
        total_senders := senders.length,
        message := "Finding emails to unlabel..." }
  rw [hP] at hspec
  obtain ⟨p1, p2, p3, p4, p5, p6, p7, p8, p9⟩ := hspec
  simp only at p1 p2 p3 p4 p5 p6 p7 p8 p9
  simp only [List.nil_append] at p5 p6
  have hids1 : ids1 = [] := by rw [p5]; exact hU
  simp only [remove_label_from_senders_background, hl, Bool.false_eq_true, if_false, hs, ha, hP, hids1,
    if_pos rfl]
  refine ⟨rfl, rfl, by simpa using p2, rfl, by simpa using p4, ?_, ?_, ?_⟩
  · simp [batchCalls_append, batchCalls, p9]
  · simp [listCalls_append, listCalls, p7]
  · simp [progressWrites_append, progressWrites, p8]

/-! ### Mark-important executor characterizations -/

theorem impOk_spec (senders : List String) (important : Bool) (env : SenderEnv)
    (hs : ¬ senders = []) (ha : env.auth = none)
    (hsearch : ∀ s ∈ senders, senderErr env.pages (fun s => "from:" ++ s) s = none)
    (hok : ∀ k, env.batchErr k = none) :
    (mark_important_background senders important env).1.done = true ∧
    (mark_important_background senders important env).1.progress = 100 ∧
    (mark_important_background senders important env).1.error = none ∧
    (mark_important_background senders important env).1.total_senders
      = senders.length ∧
    (mark_important_background senders important env).1.affected_count =
      ((senders.map (senderIds env.pages (fun s => "from:" ++ s))).flatten).length ∧
    listCalls (mark_important_background senders important env).2 =
      (senders.map (fun s =>
        List.replicate (senderCalls env.pages (fun s => "from:" ++ s) s)
          ("from:" ++ s))).flatten ∧
    batchCalls (mark_important_background senders important env).2 =
      (senders.map (fun s =>
        chunksOf 100 (senderIds env.pages (fun s => "from:" ++ s) s))).flatten ∧
    progressWrites (mark_important_background senders important env).2 =
      (List.range' 0 senders.length).map (fun j => j * 100 / senders.length) ++ [100] := by
  rcases hL : impSenderLoop env (if important then "Marking" else "Unmarking")
      senders.length 0 0 0
      { reset_important with
          total_senders := senders.length,
          message := (if important then "Marking" else "Unmarking") ++
            " as important..." } senders
    with ⟨st1, ta, k1, fatal, evs⟩
  have hspec := impSenderLoop_ok env (if important then "Marking" else "Unmarking")
    senders.length senders hsearch hok 0 0 0
    { reset_important with
        total_senders := senders.length,
        message := (if important then "Marking" else "Unmarking") ++
          " as important..." }
  rw [hL] at hspec
  obtain ⟨p1, p2, p3, p4, p5, p6, p7, p8, p9⟩ := hspec
  simp only at p1 p2 p3 p4 p5 p6 p7 p8 p9
  simp only [mark_important_background, hs, if_false, ha, hL]
  subst p6
  refine ⟨rfl, rfl, by simpa using p2, by simpa using p3, by simpa using p5, ?_, ?_, ?_⟩
  · simp [listCalls_append, listCalls, p7]
  · simp [batchCalls_append, batchCalls, p9]
  · simp [progressWrites_append, progressWrites, p8]

theorem impBatchFail_spec (s : String) (rest : List String) (important : Bool)
    (env : SenderEnv) (ids : List MsgId) (e : String) (f : Nat)
    (ha : env.auth = none)
    (hss : (searchCalls true 0 (env.pages ("from:" ++ s))).1 = .ok ids)
    (hbefore : ∀ j, j < f → env.batchErr j = none) (hfail : env.batchErr f = some e)
    (hflt : f < (chunksOf 100 ids).length) :
    (mark_important_background (s :: rest) important env).1.done = true ∧
    (mark_important_background (s :: rest) important env).1.error = some e ∧
    (mark_important_background (s :: rest) important env).1.message = "Error: " ++ e ∧
    (mark_important_background (s :: rest) important env).1.affected_count = 0 ∧
    batchCalls (mark_important_background (s :: rest) important env).2 =
      (chunksOf 100 ids).take (f + 1) ∧
    listCalls (mark_important_background (s :: rest) important env).2 =
      List.replicate (searchCalls true 0 (env.pages ("from:" ++ s))).2
        ("from:" ++ s) := by
  rcases hsc : searchCalls true 0 (env.pages ("from:" ++ s)) with ⟨res, nc⟩
  rw [hsc] at hss
  simp only at hss
  subst hss
  have hbl := impBatchLoop_fail env.batchErr e f (chunksOf 100 ids) 0 0
    (by simpa using hbefore) (by simpa using hfail) hflt
  simp only [mark_important_background, List.cons_ne_self, if_false, ha,
    impSenderLoop, hsc, hbl]
  refine ⟨rfl, rfl, rfl, rfl, ?_, ?_⟩
  · simp only [List.append_eq, batchCalls, batchCalls_append,
      batchCalls_replicate_listCall, batchCalls_map_batchCall, List.nil_append]
  · simp only [List.append_eq, listCalls, listCalls_append,
      listCalls_replicate_listCall, listCalls_map_batchCall, List.append_nil]

theorem impSearchFail_spec (s : String) (rest : List String) (important : Bool)
    (env : SenderEnv) (e : String)
    (ha : env.auth = none)
    (hss : (searchCalls true 0 (env.pages ("from:" ++ s))).1 = .error e) :
    (mark_important_background (s :: rest) important env).1.done = true ∧
    (mark_important_background (s :: rest) important env).1.error = some e ∧
    (mark_important_background (s :: rest) important env).1.message = "Error: " ++ e ∧
    (mark_important_background (s :: rest) important env).1.affected_count = 0 := by
  rcases hsc : searchCalls true 0 (env.pages ("from:" ++ s)) with ⟨res, nc⟩
  rw [hsc] at hss
  simp only at hss
  subst hss
  simp only [mark_important_background, List.cons_ne_self, if_false, ha,
    impSenderLoop, hsc]
  exact ⟨rfl, rfl, rfl, rfl⟩

/-! ### Monotonicity machinery for progress sequences -/

/-- The list is nondecreasing, with every element at least lo. -/
def monoFrom (lo : Nat) : List Nat → Prop
  | [] => True
  | v :: vs => lo ≤ v ∧ monoFrom v vs

theorem monoFrom_mono {lo lo2 : Nat} {l : List Nat} (h : lo2 ≤ lo)
    (hm : monoFrom lo l) : monoFrom lo2 l := by
  cases l with
  | nil => trivial
  | cons v vs => exact ⟨le_trans h hm.1, hm.2⟩

theorem monoFrom_chain {lo : Nat} {l : List Nat} (hm : monoFrom lo l) :
    List.Chain' (· ≤ ·) l := by
  induction l generalizing lo with
  | nil => simp
  | cons v vs ih =>
    cases vs with
    | nil => simp
    | cons w ws =>
      exact List.Chain'.cons hm.2.1 (ih hm.2)

theorem monoFrom_append {lo lo2 : Nat} {l1 l2 : List Nat} (hlo : lo ≤ lo2)
    (h1 : monoFrom lo l1) (h2 : monoFrom lo2 l2) (hb : ∀ v ∈ l1, v ≤ lo2) :
    monoFrom lo (l1 ++ l2) := by
  induction l1 generalizing lo with
  | nil => exact monoFrom_mono hlo h2
  | cons v vs ih =>
    refine ⟨h1.1, ih ?_ h1.2 ?_⟩
    · exact hb v (by simp)
    · intro w hw
      exact hb w (by simp [hw])

theorem monoFrom_map_range' (f : Nat → Nat) (hf : ∀ a b, a ≤ b → f a ≤ f b) :
    ∀ (m i : Nat), monoFrom (f i) ((List.range' i m).map f) := by
  intro m
  induction m with
  | zero => intro i; simp [monoFrom]
  | succ m ih =>
    intro i
    rw [List.range'_succ]
    exact ⟨le_refl _, monoFrom_mono (hf i (i + 1) (by omega)) (ih (i + 1))⟩

theorem mem_map_range'_bound {f : Nat → Nat} {B m i : Nat}
    (hf : ∀ j, j < i + m → f j ≤ B) :
    ∀ v ∈ (List.range' i m).map f, v ≤ B := by
  intro v hv
  obtain ⟨j, hj, rfl⟩ := List.mem_map.mp hv
  have := List.mem_range'_1.mp hj
  exact hf j this.2

theorem mem_map_range_bound {f : Nat → Nat} {B m : Nat}
    (hf : ∀ j, j < m → f j ≤ B) :
    ∀ v ∈ (List.range m).map f, v ≤ B := by
  intro v hv
  obtain ⟨j, hj, rfl⟩ := List.mem_map.mp hv
  exact hf j (List.mem_range.mp hj)

theorem monoFrom_map_range (f : Nat → Nat) (hf : ∀ a b, a ≤ b → f a ≤ f b) (m : Nat) :
    monoFrom (f 0) ((List.range m).map f) := by
  rw [List.range_eq_range']
  exact monoFrom_map_range' f hf m 0

/-! ### Arithmetic helpers for progress bounds -/

theorem take_sum_mono {j k : Nat} (L : List Nat) (h : j ≤ k) :
    (L.take j).sum ≤ (L.take k).sum := by
  rw [show L.take j = (L.take k).take j by rw [List.take_take, Nat.min_eq_left h]]
  conv_rhs => rw [← List.take_append_drop j (L.take k)]
  rw [List.sum_append]
  omega

theorem take_flatten_len_mono {j k : Nat} (l : List (List MsgId)) (h : j ≤ k) :
    ((l.take j).flatten).length ≤ ((l.take k).flatten).length := by
  simp only [List.length_flatten, List.map_take]
  exact take_sum_mono (l.map List.length) h

theorem take_flatten_len_le (j : Nat) (l : List (List MsgId)) :
    ((l.take j).flatten).length ≤ (l.flatten).length := by
  conv_rhs => rw [← List.take_append_drop j l]
  rw [List.flatten_append, List.length_append]
  omega

theorem mul_div_le_of_le {x total c : Nat} (htot : total ≠ 0) (hx : x ≤ total) :
    x * c / total ≤ c := by
  calc x * c / total ≤ total * c / total :=
        Nat.div_le_div_right (Nat.mul_le_mul_right c hx)
    _ = c := Nat.mul_div_cancel_left c (Nat.pos_of_ne_zero htot)

/-! ### Per-executor progress-write properties -/

theorem markRead_progress (count : Int) (fq : Option String) (env : MarkReadEnv) :
    monoFrom 0 (progressWrites (mark_emails_as_read count fq env).2) ∧
    ∀ v ∈ progressWrites (mark_emails_as_read count fq env).2, v ≤ 100 := by
  by_cases hc : count < 0
  · simp [mark_emails_as_read, hc, progressWrites, monoFrom]
  rcases ha : env.auth with _ | e
  · rcases hsel : markReadSelect count.toNat (count == 0) env.pages with e | sel
    · simp [mark_emails_as_read, hc, ha, hsel, progressWrites,
        progressWrites_replicate_listCall, monoFrom]
    by_cases ht : sel.length = 0
    · simp [mark_emails_as_read, hc, ha, hsel, ht, progressWrites,
        progressWrites_replicate_listCall, monoFrom]
    · have hmain : progressWrites (mark_emails_as_read count fq env).2 =
          progressWrites (mrBatchLoop env.batchErr sel.length 0 0
            { reset_mark_read with message := "Finding unread emails..." }
            (chunksOf 100 sel)).2 := by
        simp only [mark_emails_as_read, hc, if_false, ha, hsel, ht, if_neg ht]
        simp [progressWrites_append, progressWrites_replicate_listCall]
      obtain ⟨m, hm, hw⟩ := mrBatchLoop_writes env.batchErr sel.length
        (chunksOf 100 sel) 0 0
        { reset_mark_read with message := "Finding unread emails..." }
      rw [hmain, hw]
      have hmono : ∀ a b, a ≤ b →
          (0 + (((chunksOf 100 sel).take (a + 1)).flatten).length) * 100 / sel.length ≤
          (0 + (((chunksOf 100 sel).take (b + 1)).flatten).length) * 100 / sel.length := by
        intro a b hab
        apply Nat.div_le_div_right
        apply Nat.mul_le_mul_right
        simpa using take_flatten_len_mono (chunksOf 100 sel) (by omega)
      have hbound : ∀ j, j < m →
          (0 + (((chunksOf 100 sel).take (j + 1)).flatten).length) * 100 / sel.length
            ≤ 100 := by
        intro j hj
        simp only [Nat.zero_add]
        apply mul_div_le_of_le ht
        calc (((chunksOf 100 sel).take (j + 1)).flatten).length
            ≤ ((chunksOf 100 sel).flatten).length := take_flatten_len_le _ _
          _ = sel.length := by rw [chunksOf_flatten 99]
      refine ⟨monoFrom_mono (Nat.zero_le _) (monoFrom_map_range _ hmono m), ?_⟩
      exact mem_map_range_bound hbound
  · simp [mark_emails_as_read, hc, ha, progressWrites, monoFrom]

theorem labelApply_progress (label_id : String) (senders : List String)
    (env : SenderEnv) :
    monoFrom 0 (progressWrites (apply_label_to_senders_background label_id senders env).2) ∧
    ∀ v ∈ progressWrites (apply_label_to_senders_background label_id senders env).2,
      v ≤ 100 := by
  by_cases hl : isBlank label_id = true
  · simp [apply_label_to_senders_background, hl, progressWrites, monoFrom]
  by_cases hs : senders = []
  · simp [apply_label_to_senders_background, hl, hs, progressWrites, monoFrom]
  rcases ha : env.auth with _ | e
  swap
  · simp [apply_label_to_senders_background, hl, hs, ha, progressWrites, monoFrom]
  have hn : senders.length ≠ 0 := by simpa using hs
  rcases hP : labelSearchLoop env.pages (fun s => "from:" ++ s) senders.length 0 [] []
      { reset_label_operation with
          total_senders := senders.length,
          message := "Finding emails to label..." } senders
    with ⟨st1, ids1, errs1, evs1⟩
  have hspec := labelSearchLoop_spec env.pages (fun s => "from:" ++ s) senders.length
    senders 0 [] []
    { reset_label_operation with
        total_senders := senders.length,
        message := "Finding emails to label..." }
  rw [hP] at hspec
  have p8 := hspec.2.2.2.2.2.2.2.1
  simp only at p8
  have hw1mono : monoFrom 0 (progressWrites evs1) := by
    rw [p8]
    have := monoFrom_map_range' (fun j => j * 40 / senders.length)
      (fun a b hab => Nat.div_le_div_right (Nat.mul_le_mul_right 40 hab))
      senders.length 0
    simpa using this
  have hw1b : ∀ v ∈ progressWrites evs1, v ≤ 100 := by
    rw [p8]
    apply mem_map_range'_bound
    intro j hj
    calc j * 40 / senders.length ≤ 40 :=
          mul_div_le_of_le hn (by omega)
      _ ≤ 100 := by omega
  by_cases hids1 : ids1 = []
  · have hmain : progressWrites (apply_label_to_senders_background label_id senders env).2 =
        progressWrites evs1 ++ [100] := by
      simp only [apply_label_to_senders_background, hl, Bool.false_eq_true, if_false, hs, ha, hP, hids1,
        if_pos rfl]
      simp [progressWrites_append, progressWrites]
    rw [hmain]
    constructor
    · exact monoFrom_append (Nat.zero_le 100) hw1mono ⟨le_refl _, trivial⟩ hw1b
    · intro v hv
      rcases List.mem_append.mp hv with h | h
      · exact hw1b v h
      · simp at h; omega
  · rcases hB : labelBatchLoop env.batchErr "Batch label error: " "Labeled" ids1.length
        0 0 { st1 with message := s!"Applying label to {ids1.length} emails..." }
        (chunksOf 1000 ids1)
      with ⟨st2, labeled, bfail, evs2⟩
    obtain ⟨m, hm, hw2⟩ := labelBatchLoop_writes env.batchErr "Batch label error: "
      "Labeled" ids1.length (chunksOf 1000 ids1) 0 0
      { st1 with message := s!"Applying label to {ids1.length} emails..." }
    rw [hB] at hw2
    simp only at hw2
    have htot : ids1.length ≠ 0 := by simpa using hids1
    have hw2mono : monoFrom 40 (progressWrites evs2) := by
      rw [hw2]
      simp only [Nat.zero_add]
      refine monoFrom_mono (Nat.le_add_right _ _)
        (monoFrom_map_range (fun j =>
          40 + (((chunksOf 1000 ids1).take (j + 1)).flatten).length * 60 / ids1.length)
          ?_ m)
      intro a b hab
      dsimp only
      have h1 : (((chunksOf 1000 ids1).take (a + 1)).flatten).length ≤
          (((chunksOf 1000 ids1).take (b + 1)).flatten).length :=
        take_flatten_len_mono (chunksOf 1000 ids1) (by omega)
      have h2 : (((chunksOf 1000 ids1).take (a + 1)).flatten).length * 60 / ids1.length ≤
          (((chunksOf 1000 ids1).take (b + 1)).flatten).length * 60 / ids1.length :=
        Nat.div_le_div_right (Nat.mul_le_mul_right 60 h1)
      omega
    have hw2b : ∀ v ∈ progressWrites evs2, v ≤ 100 := by
      rw [hw2]
      simp only [Nat.zero_add]
      apply mem_map_range_bound
      intro j hj
      have hx : (((chunksOf 1000 ids1).take (j + 1)).flatten).length ≤ ids1.length := by
        calc (((chunksOf 1000 ids1).take (j + 1)).flatten).length
            ≤ ((chunksOf 1000 ids1).flatten).length := take_flatten_len_le _ _
          _ = ids1.length := by rw [chunksOf_flatten 999]
      have h2 : (((chunksOf 1000 ids1).take (j + 1)).flatten).length * 60 / ids1.length
          ≤ 60 := mul_div_le_of_le htot hx
      omega
    have hmain : progressWrites (apply_label_to_senders_background label_id senders env).2 =
        progressWrites evs1 ++ (progressWrites evs2 ++ [100]) := by
      simp only [apply_label_to_senders_background, hl, Bool.false_eq_true, if_false, hs, ha, hP, hids1, hB]
      simp [progressWrites_append, progressWrites]
    rw [hmain]
    constructor
    · refine monoFrom_append (Nat.zero_le 40) hw1mono ?_ ?_
      · refine monoFrom_append (by omega) hw2mono ⟨le_refl _, trivial⟩ hw2b
      · intro v hv
        calc v ≤ 40 := by
              have := hw1b v hv
              rw [p8] at hv
              obtain ⟨j, hj, rfl⟩ := List.mem_map.mp hv
              have hjn := (List.mem_range'_1.mp hj).2
              exact mul_div_le_of_le hn (by omega)
          _ ≤ 40 := le_refl _
    · intro v hv
      rcases List.mem_append.mp hv with h | h
      · exact hw1b v h
      · rcases List.mem_append.mp h with h2 | h2
        · exact hw2b v h2
        · simp at h2; omega

theorem labelRemove_progress (label_id : String) (senders : List String)
    (env : SenderEnv) :
    monoFrom 0
      (progressWrites (remove_label_from_senders_background label_id senders env).2) ∧
    ∀ v ∈ progressWrites (remove_label_from_senders_background label_id senders env).2,
      v ≤ 100 := by
  by_cases hl : isBlank label_id = true
  · simp [remove_label_from_senders_background, hl, progressWrites, monoFrom]
  by_cases hs : senders = []
  · simp [remove_label_from_senders_background, hl, hs, progressWrites, monoFrom]
  rcases ha : env.auth with _ | e
  swap
  · simp [remove_label_from_senders_background, hl, hs, ha, progressWrites, monoFrom]
  have hn : senders.length ≠ 0 := by simpa using hs
  rcases hP : labelSearchLoop env.pages
      (fun s => "from:" ++ s ++ " label:" ++ label_id) senders.length 0 [] []
      { reset_label_operation with
          total_senders := senders.length,
          message := "Finding emails to unlabel..." } senders
    with ⟨st1, ids1, errs1, evs1⟩
  have hspec := labelSearchLoop_spec env.pages
    (fun s => "from:" ++ s ++ " label:" ++ label_id) senders.length
    senders 0 [] []
    { reset_label_operation with
        total_senders := senders.length,
        message := "Finding emails to unlabel..." }
  rw [hP] at hspec
  have p8 := hspec.2.2.2.2.2.2.2.1
  simp only at p8
  have hw1mono : monoFrom 0 (progressWrites evs1) := by
    rw [p8]
    have := monoFrom_map_range' (fun j => j * 40 / senders.length)
      (fun a b hab => Nat.div_le_div_right (Nat.mul_le_mul_right 40 hab))
      senders.length 0
    simpa using this
  have hw1b : ∀ v ∈ progressWrites evs1, v ≤ 100 := by
    rw [p8]
    apply mem_map_range'_bound
    intro j hj
    calc j * 40 / senders.length ≤ 40 :=
          mul_div_le_of_le hn (by omega)
      _ ≤ 100 := by omega
  by_cases hids1 : ids1 = []
  · have hmain : progressWrites
        (remove_label_from_senders_background label_id senders env).2 =
        progressWrites evs1 ++ [100] := by
      simp only [remove_label_from_senders_background, hl, Bool.false_eq_true, if_false, hs, ha, hP, hids1,
        if_pos rfl]
      simp [progressWrites_append, progressWrites]
    rw [hmain]
    constructor
    · exact monoFrom_append (Nat.zero_le 100) hw1mono ⟨le_refl _, trivial⟩ hw1b
    · intro v hv
      rcases List.mem_append.mp hv with h | h
      · exact hw1b v h
      · simp at h; omega
  · rcases hB : labelBatchLoop env.batchErr "Batch unlabel error: " "Unlabeled"
        ids1.length 0 0
        { st1 with message := s!"Removing label from {ids1.length} emails..." }
        (chunksOf 1000 ids1)
      with ⟨st2, labeled, bfail, evs2⟩
    obtain ⟨m, hm, hw2⟩ := labelBatchLoop_writes env.batchErr "Batch unlabel error: "
      "Unlabeled" ids1.length (chunksOf 1000 ids1) 0 0
      { st1 with message := s!"Removing label from {ids1.length} emails..." }
    rw [hB] at hw2
    simp only at hw2
    have htot : ids1.length ≠ 0 := by simpa using hids1
    have hw2mono : monoFrom 40 (progressWrites evs2) := by
      rw [hw2]
      simp only [Nat.zero_add]
      refine monoFrom_mono (Nat.le_add_right _ _)
        (monoFrom_map_range (fun j =>
          40 + (((chunksOf 1000 ids1).take (j + 1)).flatten).length * 60 / ids1.length)
          ?_ m)
      intro a b hab
      dsimp only
      have h1 : (((chunksOf 1000 ids1).take (a + 1)).flatten).length ≤
          (((chunksOf 1000 ids1).take (b + 1)).flatten).length :=
        take_flatten_len_mono (chunksOf 1000 ids1) (by omega)
      have h2 : (((chunksOf 1000 ids1).take (a + 1)).flatten).length * 60 / ids1.length ≤
          (((chunksOf 1000 ids1).take (b + 1)).flatten).length * 60 / ids1.length :=
        Nat.div_le_div_right (Nat.mul_le_mul_right 60 h1)
      omega
    have hw2b : ∀ v ∈ progressWrites evs2, v ≤ 100 := by
      rw [hw2]
      simp only [Nat.zero_add]
      apply mem_map_range_bound
      intro j hj
      have hx : (((chunksOf 1000 ids1).take (j + 1)).flatten).length ≤ ids1.length := by
        calc (((chunksOf 1000 ids1).take (j + 1)).flatten).length
            ≤ ((chunksOf 1000 ids1).flatten).length := take_flatten_len_le _ _
          _ = ids1.length := by rw [chunksOf_flatten 999]
      have h2 : (((chunksOf 1000 ids1).take (j + 1)).flatten).length * 60 / ids1.length
          ≤ 60 := mul_div_le_of_le htot hx
      omega
    have hmain : progressWrites
        (remove_label_from_senders_background label_id senders env).2 =
        progressWrites evs1 ++ (progressWrites evs2 ++ [100]) := by
      simp only [remove_label_from_senders_background, hl, Bool.false_eq_true, if_false, hs, ha, hP,
        hids1, hB]
      simp [progressWrites_append, progressWrites]
    rw [hmain]
    constructor
    · refine monoFrom_append (Nat.zero_le 40) hw1mono ?_ ?_
      · refine monoFrom_append (by omega) hw2mono ⟨le_refl _, trivial⟩ hw2b
      · intro v hv
        rw [p8] at hv
        obtain ⟨j, hj, rfl⟩ := List.mem_map.mp hv
        have hjn := (List.mem_range'_1.mp hj).2
        exact mul_div_le_of_le hn (by omega)
    · intro v hv
      rcases List.mem_append.mp hv with h | h
      · exact hw1b v h
      · rcases List.mem_append.mp h with h2 | h2
        · exact hw2b v h2
        · simp at h2; omega

theorem imp_progress (senders : List String) (important : Bool) (env : SenderEnv) :
    monoFrom 0 (progressWrites (mark_important_background senders important env).2) ∧
    ∀ v ∈ progressWrites (mark_important_background senders important env).2,
      v ≤ 100 := by
  by_cases hs : senders = []
  · simp [mark_important_background, hs, progressWrites, monoFrom]
  rcases ha : env.auth with _ | e
  swap
  · simp [mark_important_background, hs, ha, progressWrites, monoFrom]
  have hn : senders.length ≠ 0 := by simpa using hs
  rcases hL : impSenderLoop env (if important then "Marking" else "Unmarking")
      senders.length 0 0 0
      { reset_important with
          total_senders := senders.length,
          message := (if important then "Marking" else "Unmarking") ++
            " as important..." } senders
    with ⟨st1, ta, k1, fatal, evs⟩
  obtain ⟨m, hm, hw⟩ := impSenderLoop_writes env
    (if important then "Marking" else "Unmarking") senders.length senders 0 0 0
    { reset_important with
        total_senders := senders.length,
        message := (if important then "Marking" else "Unmarking") ++
          " as important..." }
  rw [hL] at hw
  simp only at hw
  have hwmono : monoFrom 0 (progressWrites evs) := by
    rw [hw]
    have := monoFrom_map_range' (fun j => j * 100 / senders.length)
      (fun a b hab => Nat.div_le_div_right (Nat.mul_le_mul_right 100 hab))
      m 0
    simpa using this
  have hwb : ∀ v ∈ progressWrites evs, v ≤ 100 := by
    rw [hw]
    apply mem_map_range'_bound
    intro j hj
    have hjn : j ≤ senders.length := by omega
    exact mul_div_le_of_le hn hjn
  cases fatal with
  | some e =>
    have hmain : progressWrites (mark_important_background senders important env).2 =
        progressWrites evs := by
      simp only [mark_important_background, hs, if_false, ha, hL]
    rw [hmain]
    exact ⟨hwmono, hwb⟩
  | none =>
    have hmain : progressWrites (mark_important_background senders important env).2 =
        progressWrites evs ++ [100] := by
      simp only [mark_important_background, hs, if_false, ha, hL]
      simp [progressWrites_append, progressWrites]
    rw [hmain]
    constructor
    · exact monoFrom_append (Nat.zero_le 100) hwmono ⟨le_refl _, trivial⟩ hwb
    · intro v hv
      rcases List.mem_append.mp hv with h | h
      · exact hwb v h
      · simp at h; omega

/-! ### Terminal done = true lemmas -/

theorem markRead_done (count : Int) (fq : Option String) (env : MarkReadEnv) :
    (mark_emails_as_read count fq env).1.done = true := by
  by_cases hc : count < 0
  · simp [mark_emails_as_read, hc]
  rcases ha : env.auth with _ | e
  · rcases hsel : markReadSelect count.toNat (count == 0) env.pages with e | sel
    · simp [mark_emails_as_read, hc, ha, hsel]
    by_cases ht : sel.length = 0
    · simp [mark_emails_as_read, hc, ha, hsel, ht]
    · simp only [mark_emails_as_read, hc, if_false, ha, hsel, ht, if_neg ht]
      exact mrBatchLoop_done env.batchErr sel.length (chunksOf 100 sel) 0 0 _
  · simp [mark_emails_as_read, hc, ha]

theorem labelApply_done (label_id : String) (senders : List String) (env : SenderEnv) :
    (apply_label_to_senders_background label_id senders env).1.done = true := by
  by_cases hl : isBlank label_id = true
  · simp [apply_label_to_senders_background, hl]
  by_cases hs : senders = []
  · simp [apply_label_to_senders_background, hl, hs]
  rcases ha : env.auth with _ | e
  swap
  · simp [apply_label_to_senders_background, hl, hs, ha]
  rcases hP : labelSearchLoop env.pages (fun s => "from:" ++ s) senders.length 0 [] []
      { reset_label_operation with
          total_senders := senders.length,
          message := "Finding emails to label..." } senders
    with ⟨st1, ids1, errs1, evs1⟩
  by_cases hids1 : ids1 = []
  · simp [apply_label_to_senders_background, hl, hs, ha, hP, hids1]
  rcases hB : labelBatchLoop env.batchErr "Batch label error: " "Labeled" ids1.length
      0 0 { st1 with message := s!"Applying label to {ids1.length} emails..." }
      (chunksOf 1000 ids1)
    with ⟨st2, labeled, bfail, evs2⟩
  simp only [apply_label_to_senders_background, hl, Bool.false_eq_true, if_false, hs, ha, hP, hids1, hB]
  split <;> rfl

theorem labelRemove_done (label_id : String) (senders : List String) (env : SenderEnv) :
    (remove_label_from_senders_background label_id senders env).1.done = true := by
  by_cases hl : isBlank label_id = true
  · simp [remove_label_from_senders_background, hl]
  by_cases hs : senders = []
  · simp [remove_label_from_senders_background, hl, hs]
  rcases ha : env.auth with _ | e
  swap
  · simp [remove_label_from_senders_background, hl, hs, ha]
  rcases hP : labelSearchLoop env.pages
      (fun s => "from:" ++ s ++ " label:" ++ label_id) senders.length 0 [] []
      { reset_label_operation with
          total_senders := senders.length,
          message := "Finding emails to unlabel..." } senders
    with ⟨st1, ids1, errs1, evs1⟩
  by_cases hids1 : ids1 = []
  · simp [remove_label_from_senders_background, hl, hs, ha, hP, hids1]
  rcases hB : labelBatchLoop env.batchErr "Batch unlabel error: " "Unlabeled"
      ids1.length 0 0
      { st1 with message := s!"Removing label from {ids1.length} emails..." }
      (chunksOf 1000 ids1)
    with ⟨st2, labeled, bfail, evs2⟩
  simp only [remove_label_from_senders_background, hl, Bool.false_eq_true, if_false, hs, ha, hP, hids1, hB]
  split <;> rfl

theorem imp_done (senders : List String) (important : Bool) (env : SenderEnv) :
    (mark_important_background senders important env).1.done = true := by
  by_cases hs : senders = []
  · simp [mark_important_background, hs]
  rcases ha : env.auth with _ | e
  swap
  · simp [mark_important_background, hs, ha]
  rcases hL : impSenderLoop env (if important then "Marking" else "Unmarking")
      senders.length 0 0 0
      { reset_important with
          total_senders := senders.length,
          message := (if important then "Marking" else "Unmarking") ++
            " as important..." } senders
    with ⟨st1, ta, k1, fatal, evs⟩
  cases fatal <;> simp [mark_important_background, hs, ha, hL]

/-! ### Claim theorems -/

/-- C4: every execution of an operation executor (mark_emails_as_read,
mark_important_background, apply_label_to_senders_background,
remove_label_from_senders_background), for every behaviour of the provider —
including any provider call raising — returns with done = true in its
ProgressState, and on a fatal failure (auth error, or a raised single-target
search, or any raise inside mark-important's body) the error field carries the
failure's message; no failure path leaves done = false. -/
theorem C4_executors_always_terminal :
    (∀ (count : Int) (fq : Option String) (env : MarkReadEnv),
      (mark_emails_as_read count fq env).1.done = true) ∧
    (∀ (label_id : String) (senders : List String) (env : SenderEnv),
      (apply_label_to_senders_background label_id senders env).1.done = true) ∧
    (∀ (label_id : String) (senders : List String) (env : SenderEnv),
      (remove_label_from_senders_background label_id senders env).1.done = true) ∧
    (∀ (senders : List String) (important : Bool) (env : SenderEnv),
      (mark_important_background senders important env).1.done = true) ∧
    (∀ (count : Int) (fq : Option String) (env : MarkReadEnv) (e : String),
      ¬ count < 0 → env.auth = some e →
      (mark_emails_as_read count fq env).1.error = some e) ∧
    (∀ (count : Int) (fq : Option String) (env : MarkReadEnv) (e : String),
      ¬ count < 0 → env.auth = none →
      markReadSelect count.toNat (count == 0) env.pages = .error e →
      (mark_emails_as_read count fq env).1.error = some e) ∧
    (∀ (label_id : String) (senders : List String) (env : SenderEnv) (e : String),
      ¬ isBlank label_id = true → ¬ senders = [] → env.auth = some e →
      (apply_label_to_senders_background label_id senders env).1.error = some e ∧
      (remove_label_from_senders_background label_id senders env).1.error = some e) ∧
    (∀ (senders : List String) (important : Bool) (env : SenderEnv) (e : String),
      ¬ senders = [] → env.auth = some e →
      (mark_important_background senders important env).1.error = some e) ∧
    (∀ (s : String) (rest : List String) (important : Bool) (env : SenderEnv)
        (e : String),
      env.auth = none →
      (searchCalls true 0 (env.pages ("from:" ++ s))).1 = .error e →
      (mark_important_background (s :: rest) important env).1.error = some e ∧
      (mark_important_background (s :: rest) important env).1.message
        = "Error: " ++ e) := by
  refine ⟨markRead_done, labelApply_done, labelRemove_done, imp_done,
    ?_, ?_, ?_, ?_, ?_⟩
  · intro count fq env e hc ha
    simp [mark_emails_as_read, hc, ha]
  · intro count fq env e hc ha hsel
    simp [mark_emails_as_read, hc, ha, hsel]
  · intro label_id senders env e hl hs ha
    constructor
    · simp [apply_label_to_senders_background, hl, hs, ha]
    · simp [remove_label_from_senders_background, hl, hs, ha]
  · intro senders important env e hs ha
    simp [mark_important_background, hs, ha]
  · intro s rest important env e ha hss
    obtain ⟨h1, h2, h3, h4⟩ := impSearchFail_spec s rest important env e ha hss
    exact ⟨h2, h3⟩

/-- Witness for C4: the fatal-failure conjuncts applied at concrete inputs
(auth failure and a raising single-target search, raising per-sender search). -/
theorem C4_witness :
    ¬ (5 : Int) < 0 ∧
    (mark_emails_as_read 5 none ⟨some "no auth", [], fun _ => none⟩).1.error
      = some "no auth" ∧
    markReadSelect (5 : Int).toNat ((5 : Int) == 0) [Except.error "boom"]
      = .error "boom" ∧
    (mark_emails_as_read 5 none ⟨none, [Except.error "boom"], fun _ => none⟩).1.error
      = some "boom" ∧
    (mark_important_background ["a"] true
      ⟨none, fun _ => [Except.error "boom"], fun _ => none⟩).1.error = some "boom" := by
  refine ⟨by decide, ?_, by rfl, ?_, ?_⟩
  · exact C4_executors_always_terminal.2.2.2.2.1 5 none
      ⟨some "no auth", [], fun _ => none⟩ "no auth" (by decide) rfl
  · exact C4_executors_always_terminal.2.2.2.2.2.1 5 none
      ⟨none, [Except.error "boom"], fun _ => none⟩ "boom" (by decide) rfl rfl
  · exact (C4_executors_always_terminal.2.2.2.2.2.2.2.2 "a" [] true
      ⟨none, fun _ => [Except.error "boom"], fun _ => none⟩ "boom" rfl rfl).1

/-- C5: for every invalid required input — a negative count for
mark_emails_as_read, an empty sender list for mark_important_background and the
label operations, an empty or whitespace-only label id for the label
operations — the executor finishes with done = true and a descriptive
non-empty error, and its event trace is empty: no provider call is made. -/
theorem C5_validation (count : Int) (fq : Option String) (envM : MarkReadEnv)
    (label_id : String) (senders : List String) (envS : SenderEnv)
    (important : Bool) :
    (count < 0 →
      (mark_emails_as_read count fq envM).1.done = true ∧
      (mark_emails_as_read count fq envM).1.error = some "Count must be 0 or greater" ∧
      (mark_emails_as_read count fq envM).2 = []) ∧
    (isBlank label_id = true →
      (apply_label_to_senders_background label_id senders envS).1.done = true ∧
      (apply_label_to_senders_background label_id senders envS).1.error =
        some "Label ID is required" ∧
      (apply_label_to_senders_background label_id senders envS).2 = [] ∧
      (remove_label_from_senders_background label_id senders envS).1.done = true ∧
      (remove_label_from_senders_background label_id senders envS).1.error =
        some "Label ID is required" ∧
      (remove_label_from_senders_background label_id senders envS).2 = []) ∧
    (¬ isBlank label_id = true → senders = [] →
      (apply_label_to_senders_background label_id senders envS).1.done = true ∧
      (apply_label_to_senders_background label_id senders envS).1.error =
        some "No senders specified" ∧
      (apply_label_to_senders_background label_id senders envS).2 = [] ∧
      (remove_label_from_senders_background label_id senders envS).1.done = true ∧
      (remove_label_from_senders_background label_id senders envS).1.error =
        some "No senders specified" ∧
      (remove_label_from_senders_background label_id senders envS).2 = []) ∧
    (senders = [] →
      (mark_important_background senders important envS).1.done = true ∧
      (mark_important_background senders important envS).1.error =
        some "No senders specified" ∧
      (mark_important_background senders important envS).2 = []) := by
  refine ⟨?_, ?_, ?_, ?_⟩
  · intro hc
    simp [mark_emails_as_read, hc]
  · intro hl
    refine ⟨?_, ?_, ?_, ?_, ?_, ?_⟩ <;>
      simp [apply_label_to_senders_background, remove_label_from_senders_background, hl]
  · intro hl hs
    refine ⟨?_, ?_, ?_, ?_, ?_, ?_⟩ <;>
      simp [apply_label_to_senders_background, remove_label_from_senders_background,
        hl, hs]
  · intro hs
    refine ⟨?_, ?_, ?_⟩ <;> simp [mark_important_background, hs]

/-- Witness for C5: all four validation rejections at concrete invalid inputs. -/
theorem C5_witness :
    ((-1 : Int) < 0 ∧
      (mark_emails_as_read (-1) none ⟨none, [], fun _ => none⟩).2 = []) ∧
    ((isBlank " " = true) ∧
      (apply_label_to_senders_background " " ["a"]
        ⟨none, fun _ => [], fun _ => none⟩).2 = []) ∧
    (¬ (isBlank "L" = true) ∧ ([] : List String) = [] ∧
      (remove_label_from_senders_background "L" []
        ⟨none, fun _ => [], fun _ => none⟩).1.error = some "No senders specified") ∧
    (([] : List String) = [] ∧
      (mark_important_background [] true
        ⟨none, fun _ => [], fun _ => none⟩).1.error = some "No senders specified") := by
  refine ⟨⟨by decide, ?_⟩, ⟨by decide, ?_⟩, ⟨by decide, rfl, ?_⟩, ⟨rfl, ?_⟩⟩
  · exact ((C5_validation (-1) none ⟨none, [], fun _ => none⟩ "L" ["a"]
      ⟨none, fun _ => [], fun _ => none⟩ true).1 (by decide)).2.2
  · exact ((C5_validation 1 none ⟨none, [], fun _ => none⟩ " " ["a"]
      ⟨none, fun _ => [], fun _ => none⟩ true).2.1 (by decide)).2.2.1
  · exact (((C5_validation 1 none ⟨none, [], fun _ => none⟩ "L" []
      ⟨none, fun _ => [], fun _ => none⟩ true).2.2.1 (by decide) rfl)).2.2.2.2.1
  · exact ((C5_validation 1 none ⟨none, [], fun _ => none⟩ "L" []
      ⟨none, fun _ => [], fun _ => none⟩ true).2.2.2 rfl).2.1

/-- C9: get_unread_count never raises and always yields a count: on an auth
failure or on a raised list call the result is count 0 together with the error
string, and on success it is the provider's resultSizeEstimate (0 when the
provider omits it) with no error. -/
theorem C9_get_unread_count (env : UnreadEnv) :
    (∀ e, env.auth = some e → get_unread_count env = (0, some e)) ∧
    (∀ e, env.auth = none → env.listResult = .error e →
      get_unread_count env = (0, some e)) ∧
    (∀ est, env.auth = none → env.listResult = .ok est →
      get_unread_count env = (est.getD 0, none)) := by
  refine ⟨?_, ?_, ?_⟩
  · intro e ha
    simp [get_unread_count, ha]
  · intro e ha hl
    simp [get_unread_count, ha, hl]
  · intro est ha hl
    simp [get_unread_count, ha, hl]

/-- Witness for C9: all three outcomes at concrete environments. -/
theorem C9_witness :
    get_unread_count ⟨some "no auth", Except.ok none⟩ = (0, some "no auth") ∧
    get_unread_count ⟨none, Except.error "boom"⟩ = (0, some "boom") ∧
    get_unread_count ⟨none, Except.ok (some 7)⟩ = (7, none) ∧
    get_unread_count ⟨none, Except.ok none⟩ = (0, none) := by
  refine ⟨?_, ?_, ?_, ?_⟩
  · exact (C9_get_unread_count ⟨some "no auth", Except.ok none⟩).1 "no auth" rfl
  · exact (C9_get_unread_count ⟨none, Except.error "boom"⟩).2.1 "boom" rfl rfl
  · exact (C9_get_unread_count ⟨none, Except.ok (some 7)⟩).2.2 (some 7) rfl rfl
  · exact (C9_get_unread_count ⟨none, Except.ok none⟩).2.2 none rfl rfl

/-- C10: when mark_emails_as_read finds zero matching messages after pagination
(count ≥ 0, auth ok), it terminates with done = true, message "No unread emails
found", no error, marked_count 0, progress left at 0 (held from the reset,
never advanced to 100), and no batch-mutate call is issued. -/
theorem C10_no_matches (count : Int) (fq : Option String) (env : MarkReadEnv)
    (hc : ¬ count < 0) (ha : env.auth = none)
    (hsel : markReadSelect count.toNat (count == 0) env.pages = .ok []) :
    (mark_emails_as_read count fq env).1 =
      { done := true, progress := 0, message := "No unread emails found",
        error := none, marked_count := 0 } ∧
    batchCalls (mark_emails_as_read count fq env).2 = [] := by
  constructor
  · simp [mark_emails_as_read, hc, ha, hsel, reset_mark_read]
  · simp [mark_emails_as_read, hc, ha, hsel, batchCalls_replicate_listCall]

/-- Witness for C10: a provider returning one empty page (count 5, count 0). -/
theorem C10_witness :
    markReadSelect (5 : Int).toNat ((5 : Int) == 0) [Except.ok []] = .ok [] ∧
    (mark_emails_as_read 5 none ⟨none, [Except.ok []], fun _ => none⟩).1 =
      { done := true, progress := 0, message := "No unread emails found",
        error := none, marked_count := 0 } ∧
    (mark_emails_as_read 0 none ⟨none, [Except.ok []], fun _ => none⟩).1.done
      = true := by
  refine ⟨by rfl, ?_, ?_⟩
  · exact (C10_no_matches 5 none ⟨none, [Except.ok []], fun _ => none⟩
      (by decide) rfl (by rfl)).1
  · rw [(C10_no_matches 0 none ⟨none, [Except.ok []], fun _ => none⟩
      (by decide) rfl (by rfl)).1]

/-- C6: for every bounded search (mark_emails_as_read with count > 0) over any
sequence of provider pages of at most 500 results each, the list selected for
mutation never has more than count entries, and has exactly count entries
whenever at least count matching messages exist across all pages; when no batch
call fails, the run's batch calls cover exactly that selection and marked_count
equals its size. -/
theorem C6_bounded_search (count : Int) (fq : Option String) (ps : List (List MsgId))
    (be : Nat → Option String)
    (hcpos : 0 < count) (h500 : ∀ p ∈ ps, p.length ≤ 500) :
    ∃ sel, markReadSelect count.toNat (count == 0) (ps.map Except.ok) = .ok sel ∧
      sel.length ≤ count.toNat ∧
      (count.toNat ≤ ps.flatten.length → sel.length = count.toNat) ∧
      ((∀ k, be k = none) →
        (batchCalls (mark_emails_as_read count fq ⟨none, ps.map Except.ok, be⟩).2).flatten
          = sel ∧
        (mark_emails_as_read count fq ⟨none, ps.map Except.ok, be⟩).1.marked_count
          = sel.length) := by
  have hb : (count == 0) = false := by
    have : ¬ count = 0 := by omega
    simpa using this
  obtain ⟨sel, hsel, hle, hexact⟩ := markReadSelect_pure count.toNat ps
  have hsel2 : markReadSelect count.toNat (count == 0) (ps.map Except.ok) = .ok sel := by
    rwa [hb]
  have hc : ¬ count < 0 := by omega
  refine ⟨sel, hsel2, hle, hexact, ?_⟩
  intro hok
  by_cases hne : sel = []
  · subst hne
    constructor
    · simp [mark_emails_as_read, hc, hsel2, batchCalls_replicate_listCall]
    · simp [mark_emails_as_read, hc, hsel2, reset_mark_read]
  · obtain ⟨h1, h2, h3, h4, h5⟩ := mark_read_ok_spec count fq
      ⟨none, ps.map Except.ok, be⟩ sel hc rfl hsel2 hne hok
    exact ⟨by rw [h4, chunksOf_flatten 99], h3⟩

/-- Witness for C6: count 2 over a single page of 3 matches selects exactly 2,
and with a clean mutator the run batch-mutates exactly those 2. -/
theorem C6_witness :
    (0 : Int) < 2 ∧ (∀ p ∈ [["a", "b", "c"]], List.length p ≤ 500) ∧
    (∃ sel, markReadSelect (2 : Int).toNat ((2 : Int) == 0)
        ([["a", "b", "c"]].map Except.ok) = .ok sel ∧
      sel.length ≤ (2 : Int).toNat ∧
      ((2 : Int).toNat ≤ ([["a", "b", "c"]] : List (List MsgId)).flatten.length →
        sel.length = (2 : Int).toNat) ∧
      ((∀ k, (fun _ : Nat => (none : Option String)) k = none) →
        (batchCalls (mark_emails_as_read 2 none
          ⟨none, [["a", "b", "c"]].map Except.ok, fun _ => none⟩).2).flatten = sel ∧
        (mark_emails_as_read 2 none
          ⟨none, [["a", "b", "c"]].map Except.ok, fun _ => none⟩).1.marked_count
          = sel.length)) :=
  ⟨by decide, by decide,
    C6_bounded_search 2 none [["a", "b", "c"]] (fun _ => none) (by decide) (by decide)⟩

/-- C7: chunking — for any identifier list of size n and chunk size c ≥ 1 the
chunks cover the list with ceil(n/c) = (n + c - 1) / c chunks of size at most c;
accordingly, with no failing chunk, mark_emails_as_read issues ceil(n/100) batch
calls of size ≤ 100 with marked_count = n, label apply issues ceil(n/1000) batch
calls of size ≤ 1000 with affected_count = n over the unioned set, and
mark-important batch-mutates each sender's set in chunks of ≤ 100 with
affected_count equal to the total number of ids found. -/
theorem C7_chunking :
    (∀ (c : Nat) (l : List MsgId),
      (chunksOf (c + 1) l).length = (l.length + c) / (c + 1) ∧
      (∀ ch ∈ chunksOf (c + 1) l, ch.length ≤ c + 1) ∧
      (chunksOf (c + 1) l).flatten = l) ∧
    (∀ (count : Int) (fq : Option String) (env : MarkReadEnv) (sel : List MsgId),
      ¬ count < 0 → env.auth = none →
      markReadSelect count.toNat (count == 0) env.pages = .ok sel → sel ≠ [] →
      (∀ k, env.batchErr k = none) →
      (batchCalls (mark_emails_as_read count fq env).2).length
        = (sel.length + 99) / 100 ∧
      (∀ b ∈ batchCalls (mark_emails_as_read count fq env).2, b.length ≤ 100) ∧
      (mark_emails_as_read count fq env).1.marked_count = sel.length) ∧
    (∀ (label_id : String) (senders : List String) (env : SenderEnv),
      ¬ isBlank label_id = true → ¬ senders = [] → env.auth = none →
      (senders.map (senderIds env.pages (fun s => "from:" ++ s))).flatten ≠ [] →
      (∀ k, env.batchErr k = none) →
      (batchCalls (apply_label_to_senders_background label_id senders env).2).length =
        (((senders.map (senderIds env.pages (fun s => "from:" ++ s))).flatten).length
          + 999) / 1000 ∧
      (∀ b ∈ batchCalls (apply_label_to_senders_background label_id senders env).2,
        b.length ≤ 1000) ∧
      (apply_label_to_senders_background label_id senders env).1.affected_count =
        ((senders.map (senderIds env.pages (fun s => "from:" ++ s))).flatten).length) ∧
    (∀ (senders : List String) (important : Bool) (env : SenderEnv),
      ¬ senders = [] → env.auth = none →
      (∀ s ∈ senders, senderErr env.pages (fun s => "from:" ++ s) s = none) →
      (∀ k, env.batchErr k = none) →
      batchCalls (mark_important_background senders important env).2 =
        (senders.map (fun s =>
          chunksOf 100 (senderIds env.pages (fun s => "from:" ++ s) s))).flatten ∧
      (∀ b ∈ batchCalls (mark_important_background senders important env).2,
        b.length ≤ 100) ∧
      (mark_important_background senders important env).1.affected_count =
        ((senders.map (senderIds env.pages (fun s => "from:" ++ s))).flatten).length) := by
  refine ⟨?_, ?_, ?_, ?_⟩
  · intro c l
    exact ⟨chunksOf_length c l, fun ch hch => (chunksOf_mem_length hch).1,
      chunksOf_flatten c l⟩
  · intro count fq env sel hc ha hsel hne hok
    obtain ⟨h1, h2, h3, h4, h5⟩ := mark_read_ok_spec count fq env sel hc ha hsel hne hok
    refine ⟨?_, ?_, h3⟩
    · rw [h4, chunksOf_length 99]
    · intro b hb
      rw [h4] at hb
      exact (chunksOf_mem_length hb).1
  · intro label_id senders env hl hs ha hU hok
    obtain ⟨h1, h2, h3, h4, h5, h6, h7, h8⟩ :=
      labelApply_ok_spec label_id senders env hl hs ha hU hok
    refine ⟨?_, ?_, h4⟩
    · rw [h7, chunksOf_length 999]
    · intro b hb
      rw [h7] at hb
      exact (chunksOf_mem_length hb).1
  · intro senders important env hs ha hsearch hok
    obtain ⟨h1, h2, h3, h4, h5, h6, h7, h8⟩ :=
      impOk_spec senders important env hs ha hsearch hok
    refine ⟨h7, ?_, h5⟩
    intro b hb
    rw [h7] at hb
    obtain ⟨l, hl1, hl2⟩ := List.mem_flatten.mp hb
    obtain ⟨s, hsmem, rfl⟩ := List.mem_map.mp hl1
    exact (chunksOf_mem_length hl2).1

set_option maxRecDepth 8000 in
/-- Witness for C7: mark-read over 250 selected ids issues 3 batch calls
(100 + 100 + 50) and marks 250; label apply over one sender with 3 ids issues
one batch call; mark-important over two senders with 1 id each affects 2. -/
theorem C7_witness :
    ((chunksOf 3 ["a", "b", "c", "d", "e"]).length = (5 + 2) / 3 ∧
      (∀ ch ∈ chunksOf 3 ["a", "b", "c", "d", "e"], ch.length ≤ 3) ∧
      (chunksOf 3 ["a", "b", "c", "d", "e"]).flatten = ["a", "b", "c", "d", "e"]) ∧
    (batchCalls (mark_emails_as_read 250 none
      ⟨none, [Except.ok (List.replicate 250 "m")], fun _ => none⟩).2).length = 3 ∧
    (mark_emails_as_read 250 none
      ⟨none, [Except.ok (List.replicate 250 "m")], fun _ => none⟩).1.marked_count
      = 250 ∧
    (apply_label_to_senders_background "L" ["a"]
      ⟨none, fun _ => [Except.ok ["x", "y", "z"]], fun _ => none⟩).1.affected_count
      = 3 ∧
    (mark_important_background ["a", "b"] true
      ⟨none, fun _ => [Except.ok ["x"]], fun _ => none⟩).1.affected_count = 2 := by
  have g1 := C7_chunking.1 2 ["a", "b", "c", "d", "e"]
  have g2 := C7_chunking.2.1 250 none
    ⟨none, [Except.ok (List.replicate 250 "m")], fun _ => none⟩
    (List.replicate 250 "m") (by decide) rfl (by rfl) (by decide) (fun k => rfl)
  have g3 := C7_chunking.2.2.1 "L" ["a"]
    ⟨none, fun _ => [Except.ok ["x", "y", "z"]], fun _ => none⟩
    (by decide) (by decide) rfl (by decide) (fun k => rfl)
  have g4 := C7_chunking.2.2.2 ["a", "b"] true
    ⟨none, fun _ => [Except.ok ["x"]], fun _ => none⟩
    (by decide) rfl (by intro s hs; rfl) (fun k => rfl)
  refine ⟨g1, ?_, ?_, ?_, ?_⟩
  · rw [g2.1]
    rfl
  · rw [g2.2.2]
    rfl
  · rw [g3.2.2]
    rfl
  · rw [g4.2.2]
    rfl

/-- C8: within a single run of any executor (between its reset and its return),
the successive values written to the progress field form a monotonically
non-decreasing sequence and every written value lies in 0..100 — for all four
executors, all inputs, all provider behaviours, and both success and error
terminations. -/
theorem C8_progress_monotone :
    (∀ (count : Int) (fq : Option String) (env : MarkReadEnv),
      List.Chain' (· ≤ ·) (progressWrites (mark_emails_as_read count fq env).2) ∧
      ∀ v ∈ progressWrites (mark_emails_as_read count fq env).2, v ≤ 100) ∧
    (∀ (label_id : String) (senders : List String) (env : SenderEnv),
      List.Chain' (· ≤ ·)
        (progressWrites (apply_label_to_senders_background label_id senders env).2) ∧
      ∀ v ∈ progressWrites (apply_label_to_senders_background label_id senders env).2,
        v ≤ 100) ∧
    (∀ (label_id : String) (senders : List String) (env : SenderEnv),
      List.Chain' (· ≤ ·)
        (progressWrites (remove_label_from_senders_background label_id senders env).2) ∧
      ∀ v ∈ progressWrites
          (remove_label_from_senders_background label_id senders env).2,
        v ≤ 100) ∧
    (∀ (senders : List String) (important : Bool) (env : SenderEnv),
      List.Chain' (· ≤ ·)
        (progressWrites (mark_important_background senders important env).2) ∧
      ∀ v ∈ progressWrites (mark_important_background senders important env).2,
        v ≤ 100) := by
  refine ⟨?_, ?_, ?_, ?_⟩
  · intro count fq env
    obtain ⟨h1, h2⟩ := markRead_progress count fq env
    exact ⟨monoFrom_chain h1, h2⟩
  · intro label_id senders env
    obtain ⟨h1, h2⟩ := labelApply_progress label_id senders env
    exact ⟨monoFrom_chain h1, h2⟩
  · intro label_id senders env
    obtain ⟨h1, h2⟩ := labelRemove_progress label_id senders env
    exact ⟨monoFrom_chain h1, h2⟩
  · intro senders important env
    obtain ⟨h1, h2⟩ := imp_progress senders important env
    exact ⟨monoFrom_chain h1, h2⟩

/-- Witness for C8: concrete runs (a two-sender label apply with one failing
search, and a mark-important run with a failing chunk) have monotone 0..100
progress write sequences. -/
theorem C8_witness :
    (List.Chain' (· ≤ ·) (progressWrites (apply_label_to_senders_background "L"
      ["a", "b"] ⟨none, fun q => if q = "from:a" then [Except.error "boom"]
        else [Except.ok ["x", "y"]], fun _ => none⟩).2) ∧
      ∀ v ∈ progressWrites (apply_label_to_senders_background "L" ["a", "b"]
        ⟨none, fun q => if q = "from:a" then [Except.error "boom"]
          else [Except.ok ["x", "y"]], fun _ => none⟩).2, v ≤ 100) ∧
    (List.Chain' (· ≤ ·) (progressWrites (mark_important_background ["a"] true
      ⟨none, fun _ => [Except.ok (List.replicate 201 "m")],
        fun k => if k = 1 then some "boom" else none⟩).2) ∧
      ∀ v ∈ progressWrites (mark_important_background ["a"] true
        ⟨none, fun _ => [Except.ok (List.replicate 201 "m")],
          fun k => if k = 1 then some "boom" else none⟩).2, v ≤ 100) :=
  ⟨C8_progress_monotone.2.1 "L" ["a", "b"]
      ⟨none, fun q => if q = "from:a" then [Except.error "boom"]
        else [Except.ok ["x", "y"]], fun _ => none⟩,
    C8_progress_monotone.2.2.2 ["a"] true
      ⟨none, fun _ => [Except.ok (List.replicate 201 "m")],
        fun k => if k = 1 then some "boom" else none⟩⟩

/-- Concrete run used to refute C1: one sender with 201 ids (three chunks of
100, 100 and 1), where the second batch call raises. -/
def envC1 : SenderEnv :=
  ⟨none, fun _ => [Except.ok (List.replicate 201 "m")],
    fun k => if k = 1 then some "boom" else none⟩

/-- C1 counterexample: with 201 ids for mark-important (chunks 100/100/1) and
the second batch call failing, the claim predicts the third chunk is still
attempted (3 batch calls) and affected_count reflects the successful chunks
(101); the code issues only 2 batch calls and leaves affected_count at 0. -/
theorem C1_counterexample :
    (mark_important_background ["a"] true envC1).1.affected_count = 0 ∧
    ¬ (mark_important_background ["a"] true envC1).1.affected_count = 101 ∧
    (batchCalls (mark_important_background ["a"] true envC1).2).length = 2 ∧
    ¬ (batchCalls (mark_important_background ["a"] true envC1).2).length = 3 ∧
    (mark_important_background ["a"] true envC1).1.done = true ∧
    (mark_important_background ["a"] true envC1).1.error = some "boom" := by
  have hlen : (chunksOf 100 (List.replicate 201 "m")).length = 3 := by
    rw [show (100 : Nat) = 99 + 1 from rfl, chunksOf_length 99]
    simp only [List.length_replicate]
  obtain ⟨h1, h2, h3, h4, h5, h6⟩ := impBatchFail_spec "a" [] true envC1
    (List.replicate 201 "m") "boom" 1 rfl rfl
    (by intro j hj; interval_cases j; rfl) rfl (by omega)
  refine ⟨h4, by rw [h4]; omega, ?_, ?_, h1, h2⟩
  · rw [h5, List.length_take, hlen]
    omega
  · rw [h5, List.length_take, hlen]
    omega

/-- C1 amended: when the batch call for one chunk fails, the failure is
recorded but the remaining chunks are NOT attempted.  For label apply/remove
(chunk size 1000) with the first failure at chunk index f, exactly f + 1 batch
calls are issued, affected_count counts only the chunks before the failure,
done = true and error is a non-empty "Some errors: ..." aggregate; for
mark-important (chunk size 100) the raise aborts the whole run: done = true,
error is the raised message, and affected_count remains 0. -/
theorem C1_amended :
    (∀ (label_id : String) (senders : List String) (env : SenderEnv) (e : String)
        (f : Nat),
      ¬ isBlank label_id = true → ¬ senders = [] → env.auth = none →
      (senders.map (senderIds env.pages (fun s => "from:" ++ s))).flatten ≠ [] →
      (∀ j, j < f → env.batchErr j = none) → env.batchErr f = some e →
      f < (chunksOf 1000
        ((senders.map (senderIds env.pages (fun s => "from:" ++ s))).flatten)).length →
      (apply_label_to_senders_background label_id senders env).1.done = true ∧
      (apply_label_to_senders_background label_id senders env).1.affected_count =
        (((chunksOf 1000 ((senders.map
          (senderIds env.pages (fun s => "from:" ++ s))).flatten)).take f).flatten).length ∧
      (apply_label_to_senders_background label_id senders env).1.error =
        some ("Some errors: " ++ String.intercalate "; "
          (((senders.filterMap (senderErr env.pages (fun s => "from:" ++ s))) ++
            ["Batch label error: " ++ e]).take 3)) ∧
      batchCalls (apply_label_to_senders_background label_id senders env).2 =
        (chunksOf 1000 ((senders.map
          (senderIds env.pages (fun s => "from:" ++ s))).flatten)).take (f + 1)) ∧
    (∀ (label_id : String) (senders : List String) (env : SenderEnv) (e : String)
        (f : Nat),
      ¬ isBlank label_id = true → ¬ senders = [] → env.auth = none →
      (senders.map (senderIds env.pages
        (fun s => "from:" ++ s ++ " label:" ++ label_id))).flatten ≠ [] →
      (∀ j, j < f → env.batchErr j = none) → env.batchErr f = some e →
      f < (chunksOf 1000 ((senders.map (senderIds env.pages
        (fun s => "from:" ++ s ++ " label:" ++ label_id))).flatten)).length →
      (remove_label_from_senders_background label_id senders env).1.done = true ∧
      (remove_label_from_senders_background label_id senders env).1.affected_count =
        (((chunksOf 1000 ((senders.map (senderIds env.pages
          (fun s => "from:" ++ s ++ " label:" ++ label_id))).flatten)).take
            f).flatten).length ∧
      (remove_label_from_senders_background label_id senders env).1.error =
        some ("Some errors: " ++ String.intercalate "; "
          (((senders.filterMap (senderErr env.pages
              (fun s => "from:" ++ s ++ " label:" ++ label_id))) ++
            ["Batch unlabel error: " ++ e]).take 3)) ∧
      batchCalls (remove_label_from_senders_background label_id senders env).2 =
        (chunksOf 1000 ((senders.map (senderIds env.pages
          (fun s => "from:" ++ s ++ " label:" ++ label_id))).flatten)).take (f + 1)) ∧
    (∀ (s : String) (rest : List String) (important : Bool) (env : SenderEnv)
        (ids : List MsgId) (e : String) (f : Nat),
      env.auth = none →
      (searchCalls true 0 (env.pages ("from:" ++ s))).1 = .ok ids →
      (∀ j, j < f → env.batchErr j = none) → env.batchErr f = some e →
      f < (chunksOf 100 ids).length →
      (mark_important_background (s :: rest) important env).1.done = true ∧
      (mark_important_background (s :: rest) important env).1.error = some e ∧
      (mark_important_background (s :: rest) important env).1.affected_count = 0 ∧
      batchCalls (mark_important_background (s :: rest) important env).2 =
        (chunksOf 100 ids).take (f + 1)) := by
  refine ⟨?_, ?_, ?_⟩
  · intro label_id senders env e f hl hs ha hU hbefore hfail hflt
    exact labelApply_fail_spec label_id senders env e f hl hs ha hU hbefore hfail hflt
  · intro label_id senders env e f hl hs ha hU hbefore hfail hflt
    exact labelRemove_fail_spec label_id senders env e f hl hs ha hU hbefore hfail hflt
  · intro s rest important env ids e f ha hss hbefore hfail hflt
    obtain ⟨h1, h2, h3, h4, h5, h6⟩ :=
      impBatchFail_spec s rest important env ids e f ha hss hbefore hfail hflt
    exact ⟨h1, h2, h4, h5⟩

/-- Witness for C1 amended: a label apply whose only (first) chunk's batch call
fails ends with affected_count 0, one batch call and the aggregated error; the
mark-important conjunct applied at the 201-id run of the counterexample
environment. -/
theorem C1_witness :
    ((apply_label_to_senders_background "L" ["a"]
        ⟨none, fun _ => [Except.ok ["x", "y", "z"]],
          fun _ => some "boom"⟩).1.affected_count = 0 ∧
      (apply_label_to_senders_background "L" ["a"]
        ⟨none, fun _ => [Except.ok ["x", "y", "z"]],
          fun _ => some "boom"⟩).1.error =
        some "Some errors: Batch label error: boom" ∧
      (batchCalls (apply_label_to_senders_background "L" ["a"]
        ⟨none, fun _ => [Except.ok ["x", "y", "z"]],
          fun _ => some "boom"⟩).2).length = 1) ∧
    batchCalls (mark_important_background ["a"] true envC1).2 =
      (chunksOf 100 (List.replicate 201 "m")).take 2 := by
  have hflt : (0 : Nat) < (chunksOf 1000 ((["a"].map (senderIds
      (fun _ => [Except.ok ["x", "y", "z"]]) (fun s => "from:" ++ s))).flatten)).length := by
    rw [show (1000 : Nat) = 999 + 1 from rfl, chunksOf_length 999]
    decide
  obtain ⟨h1, h2, h3, h4⟩ := C1_amended.1 "L" ["a"]
    ⟨none, fun _ => [Except.ok ["x", "y", "z"]], fun _ => some "boom"⟩ "boom" 0
    (by decide) (by decide) rfl (by decide) (by intro j hj; omega) rfl hflt
  have hflt2 : (1 : Nat) < (chunksOf 100 (List.replicate 201 "m")).length := by
    rw [show (100 : Nat) = 99 + 1 from rfl, chunksOf_length 99]
    simp only [List.length_replicate]
    omega
  obtain ⟨g1, g2, g3, g4⟩ := C1_amended.2.2 "a" [] true envC1
    (List.replicate 201 "m") "boom" 1 rfl rfl
    (by intro j hj; interval_cases j; rfl) rfl hflt2
  refine ⟨⟨?_, ?_, ?_⟩, g4⟩
  · rw [h2]
    rfl
  · rw [h3]
    rfl
  · rw [h4, List.length_take]
    rw [show (1000 : Nat) = 999 + 1 from rfl, chunksOf_length 999]
    decide

/-- C2 counterexample: mark-important with two senders of one message each
writes the progress sequence [0, 50, 100] — the write for sender index 1 is
int((1/2)*100) = 50, not the claimed int((1/2)*40) = 20, and there is no
40-to-100 phase-2 over a unioned set. -/
theorem C2_counterexample :
    progressWrites (mark_important_background ["a", "b"] true
      ⟨none, fun _ => [Except.ok ["x"]], fun _ => none⟩).2 = [0, 50, 100] ∧
    ¬ (50 : Nat) = 1 * 40 / 2 := by
  constructor
  · rfl
  · decide

/-- C2 amended: for the label operations (apply and remove) with a non-empty
sender list, Phase 1 performs one paginated search per sender with the progress
write for sender index i being int((i/total_senders)*40), and Phase 2 runs the
batch mutator once over the unioned identifier set with writes
40 + int((labeled/total)*60) ending in 100; mark_important_background instead
interleaves search and mutation per sender, writing int((i/total_senders)*100)
per sender and a final 100, and batch-mutates each sender's set separately. -/
theorem C2_amended :
    (∀ (label_id : String) (senders : List String) (env : SenderEnv),
      ¬ isBlank label_id = true → ¬ senders = [] → env.auth = none →
      (senders.map (senderIds env.pages (fun s => "from:" ++ s))).flatten ≠ [] →
      (∀ k, env.batchErr k = none) →
      listCalls (apply_label_to_senders_background label_id senders env).2 =
        (senders.map (fun s =>
          List.replicate (senderCalls env.pages (fun s => "from:" ++ s) s)
            ("from:" ++ s))).flatten ∧
      batchCalls (apply_label_to_senders_background label_id senders env).2 =
        chunksOf 1000
          ((senders.map (senderIds env.pages (fun s => "from:" ++ s))).flatten) ∧
      progressWrites (apply_label_to_senders_background label_id senders env).2 =
        (List.range' 0 senders.length).map (fun i => i * 40 / senders.length) ++
        ((List.range (chunksOf 1000 ((senders.map
            (senderIds env.pages (fun s => "from:" ++ s))).flatten)).length).map
          (fun j => 40 + (((chunksOf 1000 ((senders.map
              (senderIds env.pages (fun s => "from:" ++ s))).flatten)).take
                (j + 1)).flatten).length * 60 /
            ((senders.map (senderIds env.pages (fun s => "from:" ++ s))).flatten).length)
          ++ [100])) ∧
    (∀ (label_id : String) (senders : List String) (env : SenderEnv),
      ¬ isBlank label_id = true → ¬ senders = [] → env.auth = none →
      (senders.map (senderIds env.pages
        (fun s => "from:" ++ s ++ " label:" ++ label_id))).flatten ≠ [] →
      (∀ k, env.batchErr k = none) →
      listCalls (remove_label_from_senders_background label_id senders env).2 =
        (senders.map (fun s =>
          List.replicate (senderCalls env.pages
            (fun s => "from:" ++ s ++ " label:" ++ label_id) s)
            ("from:" ++ s ++ " label:" ++ label_id))).flatten ∧
      batchCalls (remove_label_from_senders_background label_id senders env).2 =
        chunksOf 1000 ((senders.map (senderIds env.pages
          (fun s => "from:" ++ s ++ " label:" ++ label_id))).flatten) ∧
      progressWrites (remove_label_from_senders_background label_id senders env).2 =
        (List.range' 0 senders.length).map (fun i => i * 40 / senders.length) ++
        ((List.range (chunksOf 1000 ((senders.map (senderIds env.pages
            (fun s => "from:" ++ s ++ " label:" ++ label_id))).flatten)).length).map
          (fun j => 40 + (((chunksOf 1000 ((senders.map (senderIds env.pages
              (fun s => "from:" ++ s ++ " label:" ++ label_id))).flatten)).take
                (j + 1)).flatten).length * 60 /
            ((senders.map (senderIds env.pages
              (fun s => "from:" ++ s ++ " label:" ++ label_id))).flatten).length)
          ++ [100])) ∧
    (∀ (senders : List String) (important : Bool) (env : SenderEnv),
      ¬ senders = [] → env.auth = none →
      (∀ s ∈ senders, senderErr env.pages (fun s => "from:" ++ s) s = none) →
      (∀ k, env.batchErr k = none) →
      progressWrites (mark_important_background senders important env).2 =
        (List.range' 0 senders.length).map (fun j => j * 100 / senders.length)
          ++ [100] ∧
      batchCalls (mark_important_background senders important env).2 =
        (senders.map (fun s =>
          chunksOf 100 (senderIds env.pages (fun s => "from:" ++ s) s))).flatten) := by
  refine ⟨?_, ?_, ?_⟩
  · intro label_id senders env hl hs ha hU hok
    obtain ⟨h1, h2, h3, h4, h5, h6, h7, h8⟩ :=
      labelApply_ok_spec label_id senders env hl hs ha hU hok
    exact ⟨h6, h7, h8⟩
  · intro label_id senders env hl hs ha hU hok
    obtain ⟨h1, h2, h3, h4, h5, h6, h7, h8⟩ :=
      labelRemove_ok_spec label_id senders env hl hs ha hU hok
    exact ⟨h6, h7, h8⟩
  · intro senders important env hs ha hsearch hok
    obtain ⟨h1, h2, h3, h4, h5, h6, h7, h8⟩ :=
      impOk_spec senders important env hs ha hsearch hok
    exact ⟨h8, h7⟩

/-- Witness for C2 amended: a two-sender label apply writes [0, 20, 100, 100]
(phase 1 at 0 and 20, one phase-2 chunk reaching 100, final 100) and
batch-mutates the two found ids in one call; the same environment's
mark-important run writes [0, 50, 100]. -/
theorem C2_witness :
    progressWrites (apply_label_to_senders_background "L" ["a", "b"]
      ⟨none, fun _ => [Except.ok ["x"]], fun _ => none⟩).2 = [0, 20, 100, 100] ∧
    batchCalls (apply_label_to_senders_background "L" ["a", "b"]
      ⟨none, fun _ => [Except.ok ["x"]], fun _ => none⟩).2 = [["x", "x"]] ∧
    progressWrites (mark_important_background ["a", "b"] true
      ⟨none, fun _ => [Except.ok ["x"]], fun _ => none⟩).2 = [0, 50, 100] := by
  obtain ⟨h6, h7, h8⟩ := C2_amended.1 "L" ["a", "b"]
    ⟨none, fun _ => [Except.ok ["x"]], fun _ => none⟩
    (by decide) (by decide) rfl (by decide) (fun k => rfl)
  obtain ⟨g8, g7⟩ := C2_amended.2.2 ["a", "b"] true
    ⟨none, fun _ => [Except.ok ["x"]], fun _ => none⟩
    (by decide) rfl (by intro s hs; rfl) (fun k => rfl)
  refine ⟨?_, ?_, ?_⟩
  · rw [h8]
    rfl
  · rw [h7]
    rfl
  · rw [g8]
    rfl

/-- C3 counterexample: a label apply whose single sender's search raises ends
with done = true and message "No emails found to label" but with NO error field
set — the claim demands the error field be present (aggregating the recorded
per-sender error string) also when every search fails and no ids are
collected. -/
theorem C3_counterexample :
    (apply_label_to_senders_background "L" ["a"]
      ⟨none, fun _ => [Except.error "boom"], fun _ => none⟩).1.error = none ∧
    (apply_label_to_senders_background "L" ["a"]
      ⟨none, fun _ => [Except.error "boom"], fun _ => none⟩).1.done = true ∧
    (apply_label_to_senders_background "L" ["a"]
      ⟨none, fun _ => [Except.error "boom"], fun _ => none⟩).1.message =
      "No emails found to label" ∧
    ¬ (apply_label_to_senders_background "L" ["a"]
      ⟨none, fun _ => [Except.error "boom"], fun _ => none⟩).1.error ≠ none := by
  refine ⟨rfl, rfl, rfl, ?_⟩
  intro h
  exact h rfl

/-- C3 amended: in label apply/remove a failing per-sender search is recorded
and that sender skipped, every remaining sender is still searched, and the run
always ends done = true; but the error field is populated (as "Some errors: "
with up to 3 recorded strings joined by "; ") only when at least one message id
was collected — when no ids were collected the run ends with no error and the
"No emails found ..." message, even if searches failed. -/
theorem C3_amended :
    (∀ (label_id : String) (senders : List String) (env : SenderEnv),
      ¬ isBlank label_id = true → ¬ senders = [] → env.auth = none →
      (∀ k, env.batchErr k = none) →
      (apply_label_to_senders_background label_id senders env).1.done = true ∧
      listCalls (apply_label_to_senders_background label_id senders env).2 =
        (senders.map (fun s =>
          List.replicate (senderCalls env.pages (fun s => "from:" ++ s) s)
            ("from:" ++ s))).flatten ∧
      ((senders.map (senderIds env.pages (fun s => "from:" ++ s))).flatten ≠ [] →
        senders.filterMap (senderErr env.pages (fun s => "from:" ++ s)) ≠ [] →
        (apply_label_to_senders_background label_id senders env).1.error =
          some ("Some errors: " ++ String.intercalate "; "
            ((senders.filterMap (senderErr env.pages (fun s => "from:" ++ s))).take 3))) ∧
      ((senders.map (senderIds env.pages (fun s => "from:" ++ s))).flatten = [] →
        (apply_label_to_senders_background label_id senders env).1.error = none ∧
        (apply_label_to_senders_background label_id senders env).1.message =
          "No emails found to label")) ∧
    (∀ (label_id : String) (senders : List String) (env : SenderEnv),
      ¬ isBlank label_id = true → ¬ senders = [] → env.auth = none →
      (∀ k, env.batchErr k = none) →
      (remove_label_from_senders_background label_id senders env).1.done = true ∧
      listCalls (remove_label_from_senders_background label_id senders env).2 =
        (senders.map (fun s =>
          List.replicate (senderCalls env.pages
            (fun s => "from:" ++ s ++ " label:" ++ label_id) s)
            ("from:" ++ s ++ " label:" ++ label_id))).flatten ∧
      ((senders.map (senderIds env.pages
          (fun s => "from:" ++ s ++ " label:" ++ label_id))).flatten ≠ [] →
        senders.filterMap (senderErr env.pages
          (fun s => "from:" ++ s ++ " label:" ++ label_id)) ≠ [] →
        (remove_label_from_senders_background label_id senders env).1.error =
          some ("Some errors: " ++ String.intercalate "; "
            ((senders.filterMap (senderErr env.pages
              (fun s => "from:" ++ s ++ " label:" ++ label_id))).take 3))) ∧
      ((senders.map (senderIds env.pages
          (fun s => "from:" ++ s ++ " label:" ++ label_id))).flatten = [] →
        (remove_label_from_senders_background label_id senders env).1.error = none ∧
        (remove_label_from_senders_background label_id senders env).1.message =
          "No emails found with this label")) := by
  constructor
  · intro label_id senders env hl hs ha hok
    refine ⟨labelApply_done label_id senders env, ?_, ?_, ?_⟩
    · by_cases hU : (senders.map (senderIds env.pages (fun s => "from:" ++ s))).flatten
          = []
      · exact (labelApply_empty_spec label_id senders env hl hs ha hU).2.2.2.2.2.2.1
      · exact (labelApply_ok_spec label_id senders env hl hs ha hU hok).2.2.2.2.2.1
    · intro hU herr
      have h5 := (labelApply_ok_spec label_id senders env hl hs ha hU hok).2.2.2.2.1
      rw [h5, if_neg herr]
    · intro hU
      have h := labelApply_empty_spec label_id senders env hl hs ha hU
      exact ⟨h.2.2.1, h.2.2.2.1⟩
  · intro label_id senders env hl hs ha hok
    refine ⟨labelRemove_done label_id senders env, ?_, ?_, ?_⟩
    · by_cases hU : (senders.map (senderIds env.pages
          (fun s => "from:" ++ s ++ " label:" ++ label_id))).flatten = []
      · exact (labelRemove_empty_spec label_id senders env hl hs ha hU).2.2.2.2.2.2.1
      · exact (labelRemove_ok_spec label_id senders env hl hs ha hU hok).2.2.2.2.2.1
    · intro hU herr
      have h5 := (labelRemove_ok_spec label_id senders env hl hs ha hU hok).2.2.2.2.1
      rw [h5, if_neg herr]
    · intro hU
      have h := labelRemove_empty_spec label_id senders env hl hs ha hU
      exact ⟨h.2.2.1, h.2.2.2.1⟩

/-- Witness for C3 amended: with senders a (search raises) and b (two ids),
both senders are searched, the run completes with the found ids labeled and
error "Some errors: a: boom"; with a alone (search raises, no ids) the run
ends with no error and the "No emails found to label" message. -/
theorem C3_witness :
    (apply_label_to_senders_background "L" ["a", "b"]
      ⟨none, fun q => if q = "from:a" then [Except.error "boom"]
        else [Except.ok ["x", "y"]], fun _ => none⟩).1.error =
      some "Some errors: a: boom" ∧
    listCalls (apply_label_to_senders_background "L" ["a", "b"]
      ⟨none, fun q => if q = "from:a" then [Except.error "boom"]
        else [Except.ok ["x", "y"]], fun _ => none⟩).2 = ["from:a", "from:b"] ∧
    (apply_label_to_senders_background "L" ["a"]
      ⟨none, fun _ => [Except.error "boom"], fun _ => none⟩).1.error = none ∧
    (apply_label_to_senders_background "L" ["a"]
      ⟨none, fun _ => [Except.error "boom"], fun _ => none⟩).1.message =
      "No emails found to label" := by
  obtain ⟨d1, l1, e1, z1⟩ := C3_amended.1 "L" ["a", "b"]
    ⟨none, fun q => if q = "from:a" then [Except.error "boom"]
      else [Except.ok ["x", "y"]], fun _ => none⟩
    (by decide) (by decide) rfl (fun k => rfl)
  obtain ⟨d2, l2, e2, z2⟩ := C3_amended.1 "L" ["a"]
    ⟨none, fun _ => [Except.error "boom"], fun _ => none⟩
    (by decide) (by decide) rfl (fun k => rfl)
  refine ⟨?_, ?_, ?_, ?_⟩
  · rw [e1 (by decide) (by decide)]
    rfl
  · rw [l1]
    rfl
  · exact (z2 rfl).1
  · exact (z2 rfl).2

end GmailCleaner
